import Mathlib

/-!
Verification development for the graphics-pipeline subsystem
(vk_graphics_pipeline.cpp / vk_device.cpp).

The definitions below are a shallow embedding of the source:
pure C++ helper functions become Lean functions, the stateful
creation/bind paths become explicit state-passing functions, and
external collaborators (PAL device, render-state cache internals,
command encoder) are modelled by oracles or, where the deciding code
is not part of the available sources, by definitions modelled from
the specification (each such definition says so in its doc comment).
Machine integers are modelled as Nat (no arithmetic in this subsystem
overflows 32 bits on the modelled paths); 32-bit floats are modelled
as rationals, which is exact for every value the claims exercise.
-/

set_option autoImplicit false

namespace Xgl

/-- Result codes produced on the modelled creation paths (subset of VkResult). -/
inductive VkResult where
  | success
  | errorOutOfHostMemory
  | errorInitializationFailed
  | errorPalFailure
  deriving DecidableEq, Repr

/- Indices of the dynamic-state categories (DynamicStatesInternal, whose first
nine values coincide with the core VK_DYNAMIC_STATE_* values used as shift
amounts for staticStateMask). -/
namespace DynamicStatesInternal

def VIEWPORT : ℕ := 0

def SCISSOR : ℕ := 1

def LINE_WIDTH : ℕ := 2

def DEPTH_BIAS : ℕ := 3

def BLEND_CONSTANTS : ℕ := 4

def DEPTH_BOUNDS : ℕ := 5

def STENCIL_COMPARE_MASK : ℕ := 6

def STENCIL_WRITE_MASK : ℕ := 7

def STENCIL_REFERENCE : ℕ := 8

def SAMPLE_LOCATIONS_EXT : ℕ := 9

end DynamicStatesInternal

/-- VK_DYNAMIC_STATE_RANGE_SIZE: number of core dynamic-state enum values. -/
def VK_DYNAMIC_STATE_RANGE_SIZE : ℕ := 9

/-- Numeric value of the extension enum VK_DYNAMIC_STATE_SAMPLE_LOCATIONS_EXT. -/
def VK_DYNAMIC_STATE_SAMPLE_LOCATIONS_EXT_VALUE : ℕ := 1000143000

/-- Sets bit c of a state mask, modelling `mask |= 1 << c`. -/
def setBit (m c : ℕ) : ℕ := m ||| (1 <<< c)

/-- Models Util::Pow2Pad: rounds a positive integer up to the nearest power of
two (the argument is never zero on the modelled paths). -/
def Pow2Pad (n : ℕ) : ℕ := 2 ^ Nat.clog 2 n

/-- Pal::MaxMsaaRasterizerSamples. -/
def MaxMsaaRasterizerSamples : ℕ := 16

/-- Pal::MaxColorTargets. -/
def MaxColorTargets : ℕ := 8

/-- Pal::TriangleRasterStateParams as baked by BuildRasterizationState.  The
fill/cull/front-face codes are the converted enum values; the conversion
tables (vk_conv.h) are outside the available sources and are injective on the
relevant enums, so the codes are carried through unchanged. -/
structure TriangleRasterState where
  fillMode : ℕ
  cullMode : ℕ
  frontFace : ℕ
  depthBiasEnable : Bool
  deriving DecidableEq, Repr

/-- Pal::DepthBiasParams. -/
structure DepthBiasParams where
  depthBias : ℚ
  depthBiasClamp : ℚ
  slopeScaledDepthBias : ℚ
  deriving DecidableEq, Repr

/-- Pal::PointLineRasterStateParams. -/
structure PointLineRasterParams where
  lineWidth : ℚ
  pointSize : ℚ
  pointSizeMin : ℚ
  pointSizeMax : ℚ
  deriving DecidableEq, Repr

/-- Pal::DepthBoundsParams. -/
structure DepthBoundParams where
  min : ℚ
  max : ℚ
  deriving DecidableEq, Repr

/-- Pal::ViewportParams: a count plus the (abstracted) array of viewport
values; the per-entry contents are irrelevant to every claim and are carried
as an opaque payload. -/
structure ViewportParams where
  count : ℕ
  payload : ℕ
  deriving DecidableEq, Repr

/-- Pal::ScissorRectParams, abstracted like ViewportParams. -/
structure ScissorRectParams where
  count : ℕ
  payload : ℕ
  deriving DecidableEq, Repr

/-- A quad sample pattern: one of the five built-in default tables
(VK_DEFAULT_SAMPLE_PATTERN_*X, whose numeric contents live in vk_conv.h,
outside the available sources, and are pairwise distinct), or a custom
pattern converted from a sample-locations block. -/
inductive QuadPat where
  | default1x
  | default2x
  | default4x
  | default8x
  | default16x
  | custom (payload : ℕ)
  deriving DecidableEq, Repr

/-- SamplePattern (sample count plus location table).  locations is an Option
because Device::GetDefaultQuadSamplePattern returns a null pointer for
unsupported counts and the caller dereferences it unchecked; none models the
null pointer. -/
structure SamplePattern where
  sampleCount : ℕ
  locations : Option QuadPat
  deriving DecidableEq, Repr

/-- Pal::InputAssemblyStateParams as baked into ImmedInfo. -/
structure InputAssemblyState where
  topology : ℕ
  primitiveRestartEnable : Bool
  primitiveRestartIndex : ℕ
  deriving DecidableEq, Repr

/-- Stencil reference/mask values baked into ImmedInfo. -/
structure StencilRefMasks where
  frontRef : ℕ
  frontReadMask : ℕ
  frontWriteMask : ℕ
  frontOpValue : ℕ
  backRef : ℕ
  backReadMask : ℕ
  backWriteMask : ℕ
  backOpValue : ℕ
  deriving DecidableEq, Repr

/-- GraphicsPipeline::ImmedInfo: the immediate (bind-time) state of a pipeline,
zero-initialized at the start of GraphicsPipeline::Create. -/
structure ImmedInfo where
  staticStateMask : ℕ
  inputAssemblyState : InputAssemblyState
  triangleRasterState : TriangleRasterState
  pointLineRasterParams : PointLineRasterParams
  depthBiasParams : DepthBiasParams
  blendConstParams : ℕ
  depthBoundParams : DepthBoundParams
  viewportParams : ViewportParams
  scissorRectParams : ScissorRectParams
  samplePattern : SamplePattern
  stencilRefMasks : StencilRefMasks
  deriving DecidableEq, Repr

/-- Zero-initialized ImmedInfo (ImmedInfo immedInfo = \x7b\x7d in Create). -/
def ImmedInfo.init : ImmedInfo where
  staticStateMask := 0
  inputAssemblyState := { topology := 0, primitiveRestartEnable := false, primitiveRestartIndex := 0 }
  triangleRasterState := { fillMode := 0, cullMode := 0, frontFace := 0, depthBiasEnable := false }
  pointLineRasterParams := { lineWidth := 0, pointSize := 0, pointSizeMin := 0, pointSizeMax := 0 }
  depthBiasParams := { depthBias := 0, depthBiasClamp := 0, slopeScaledDepthBias := 0 }
  blendConstParams := 0
  depthBoundParams := { min := 0, max := 0 }
  viewportParams := { count := 0, payload := 0 }
  scissorRectParams := { count := 0, payload := 0 }
  samplePattern := { sampleCount := 0, locations := none }
  stencilRefMasks := { frontRef := 0, frontReadMask := 0, frontWriteMask := 0, frontOpValue := 0,
                       backRef := 0, backReadMask := 0, backWriteMask := 0, backOpValue := 0 }

/-- Modelled from the spec: the reserved sentinel token (DynamicRenderStateToken,
declared in the render-state-cache header outside the available sources) that
marks a category left dynamic, never returned for a cached static value. -/
def DynamicRenderStateToken : ℕ := 0

/-- Modelled from the spec: one category map of the device-level
RenderStateCache (outside the available sources).  Entries associate a full
structural state value with its token and a reference count; tokens are
assigned from a counter that never produces the reserved dynamic sentinel. -/
structure StateCache (α : Type) where
  entries : List (α × ℕ × ℕ)
  nextToken : ℕ
  deriving Repr

namespace StateCache

variable {α : Type}

/-- A cache is well formed when every assigned token (including the next fresh
one) is distinct from the reserved dynamic sentinel. -/
def wf (s : StateCache α) : Prop :=
  1 ≤ s.nextToken ∧ ∀ e ∈ s.entries, 1 ≤ e.2.1

/-- Bumps the reference count of the first entry holding the given value. -/
def bumpEntry [DecidableEq α] : List (α × ℕ × ℕ) → α → List (α × ℕ × ℕ)
  | [], _ => []
  | e :: rest, v =>
    if e.1 = v then (e.1, e.2.1, e.2.2 + 1) :: rest else e :: bumpEntry rest v

/-- Drops one reference from the first entry holding the given value,
removing the entry when its reference count reaches zero. -/
def releaseEntry [DecidableEq α] : List (α × ℕ × ℕ) → α → List (α × ℕ × ℕ)
  | [], _ => []
  | e :: rest, v =>
    if e.1 = v then
      (if e.2.2 ≤ 1 then rest else (e.1, e.2.1, e.2.2 - 1) :: rest)
    else e :: releaseEntry rest v

/-- Modelled from the spec: RenderStateCache::CreateXxxState.  A repeat value
returns the stable existing token and gains a reference; a new value is
assigned the next fresh token with one reference. -/
def create [DecidableEq α] (s : StateCache α) (v : α) : ℕ × StateCache α :=
  match s.entries.find? (fun e => decide (e.1 = v)) with
  | some e => (e.2.1, { entries := bumpEntry s.entries v, nextToken := s.nextToken })
  | none => (s.nextToken, { entries := (v, s.nextToken, 1) :: s.entries, nextToken := s.nextToken + 1 })

/-- Modelled from the spec: RenderStateCache::DestroyXxxState.  Releasing the
reserved dynamic sentinel is a no-op; otherwise one reference to the value is
released. -/
def destroyState [DecidableEq α] (s : StateCache α) (v : α) (t : ℕ) : StateCache α :=
  if t = DynamicRenderStateToken then s
  else { entries := releaseEntry s.entries v, nextToken := s.nextToken }

/-- The token currently associated with a value, if any. -/
def lookupToken [DecidableEq α] (s : StateCache α) (v : α) : Option ℕ :=
  (s.entries.find? (fun e => decide (e.1 = v))).map (fun e => e.2.1)

end StateCache

/-- GraphicsPipeline::CreateInfo pipeline/MSAA fields tracked by the model
(Pal::GraphicsPipelineCreateInfo and related blocks). -/
structure PalPipelineState where
  rsRasterizerDiscardEnable : Bool
  rsPerpLineEndCapsEnable : Bool
  rsOutOfOrderPrimsEnable : Bool
  rsNumSamples : ℕ
  rsSamplePatternIdx : ℕ
  vpDepthClipEnable : Bool
  cbAlphaToCoverageEnable : Bool
  cbDualSourceBlendEnable : Bool
  cbLogicOp : ℕ
  dsDepthEnable : Bool
  dsDepthWriteEnable : Bool
  dsDepthFunc : ℕ
  dsDepthBoundsEnable : Bool
  dsStencilEnable : Bool
  viewInstancingEnabled : Bool
  deriving DecidableEq, Repr

/-- Zero-initialized PalPipelineState (CreateInfo createInfo = \x7b\x7d). -/
def PalPipelineState.init : PalPipelineState where
  rsRasterizerDiscardEnable := false
  rsPerpLineEndCapsEnable := false
  rsOutOfOrderPrimsEnable := false
  rsNumSamples := 0
  rsSamplePatternIdx := 0
  vpDepthClipEnable := false
  cbAlphaToCoverageEnable := false
  cbDualSourceBlendEnable := false
  cbLogicOp := 0
  dsDepthEnable := false
  dsDepthWriteEnable := false
  dsDepthFunc := 0
  dsDepthBoundsEnable := false
  dsStencilEnable := false
  viewInstancingEnabled := false

/-- Pal::MsaaStateCreateInfo fields filled by BuildPatchedShaders. -/
structure MsaaState where
  coverageSamples : ℕ
  pixelShaderSamples : ℕ
  depthStencilSamples : ℕ
  shaderExportMaskSamples : ℕ
  sampleClusters : ℕ
  alphaToCoverageSamples : ℕ
  occlusionQuerySamples : ℕ
  sampleMask : ℕ
  exposedSamples : ℕ
  deriving DecidableEq, Repr

/-- Values of pInfo->msaa after the defaults block at the top of
BuildPatchedShaders (every listed field is forced to 1; exposedSamples keeps
its zero initialization). -/
def MsaaState.defaults : MsaaState where
  coverageSamples := 1
  pixelShaderSamples := 1
  depthStencilSamples := 1
  shaderExportMaskSamples := 1
  sampleClusters := 1
  alphaToCoverageSamples := 1
  occlusionQuerySamples := 1
  sampleMask := 1
  exposedSamples := 0

/-- VkPipelineInputAssemblyStateCreateInfo. -/
structure InputAssemblyCreateInfo where
  topology : ℕ
  primitiveRestartEnable : Bool
  deriving DecidableEq, Repr

/-- VkPipelineViewportStateCreateInfo (viewport/scissor arrays abstracted to
payloads; the source asserts scissorCount == viewportCount but reads both). -/
structure ViewportStateCreateInfo where
  viewportCount : ℕ
  scissorCount : ℕ
  viewportsPayload : ℕ
  scissorsPayload : ℕ
  deriving DecidableEq, Repr

/-- VkPipelineRasterizationStateCreateInfo. -/
structure RasterizationCreateInfo where
  depthClampEnable : Bool
  rasterizerDiscardEnable : Bool
  polygonMode : ℕ
  cullMode : ℕ
  frontFace : ℕ
  depthBiasEnable : Bool
  depthBiasConstantFactor : ℚ
  depthBiasClamp : ℚ
  depthBiasSlopeFactor : ℚ
  lineWidth : ℚ
  deriving DecidableEq, Repr

/-- Extension blocks chained behind the rasterization create info: the AMD
rasterization-order block (carrying its order enum) or an unrecognized block
(skipped by the walk). -/
inductive RasterizationExt where
  | rasterizationOrderAMD (order : ℕ)
  | unknownBlock (sType : ℕ)
  deriving DecidableEq, Repr

/-- VkPipelineSampleLocationsStateCreateInfoEXT (locations abstracted). -/
structure SampleLocationsInfo where
  sampleLocationsEnable : Bool
  sampleLocationsPerPixel : ℕ
  locationsPayload : ℕ
  deriving DecidableEq, Repr

/-- VkPipelineMultisampleStateCreateInfo plus its optional chained
sample-locations block. -/
structure MultisampleCreateInfo where
  rasterizationSamples : ℕ
  sampleShadingEnable : Bool
  minSampleShading : ℚ
  pSampleMask : Option ℕ
  alphaToCoverageEnable : Bool
  sampleLocationsExt : Option SampleLocationsInfo
  deriving DecidableEq, Repr

/-- VkPipelineColorBlendAttachmentState (blend factors carried as the numeric
VkBlendFactor enum values). -/
structure ColorBlendAttachmentState where
  blendEnable : Bool
  srcColorBlendFactor : ℕ
  dstColorBlendFactor : ℕ
  colorBlendOp : ℕ
  srcAlphaBlendFactor : ℕ
  dstAlphaBlendFactor : ℕ
  alphaBlendOp : ℕ
  colorWriteMask : ℕ
  deriving DecidableEq, Repr

/-- VkPipelineColorBlendStateCreateInfo (blend constants abstracted). -/
structure ColorBlendCreateInfo where
  logicOpEnable : Bool
  logicOp : ℕ
  attachments : List ColorBlendAttachmentState
  blendConstants : ℕ
  deriving DecidableEq, Repr

/-- VkPipelineDepthStencilStateCreateInfo (per-face op blocks abstracted to
the fields the model reads). -/
structure DepthStencilCreateInfo where
  depthTestEnable : Bool
  depthWriteEnable : Bool
  depthCompareOp : ℕ
  depthBoundsTestEnable : Bool
  stencilTestEnable : Bool
  frontReference : ℕ
  frontCompareMask : ℕ
  frontWriteMask : ℕ
  backReference : ℕ
  backCompareMask : ℕ
  backWriteMask : ℕ
  minDepthBounds : ℚ
  maxDepthBounds : ℚ
  deriving DecidableEq, Repr

/-- The queries BuildPatchedShaders makes of the render pass, as functions of
subpass (and color-target index); format code 0 models
VK_FORMAT_UNDEFINED / Pal::ChNumFormat::Undefined. -/
structure RenderPassModel where
  colorAttachmentFormat : ℕ → ℕ → ℕ
  subpassMaxSampleCount : ℕ → ℕ
  subpassColorSampleCount : ℕ → ℕ
  subpassDepthSampleCount : ℕ → ℕ
  depthStencilAttachmentFormat : ℕ → ℕ
  multiviewEnabled : Bool

/-- VkGraphicsPipelineCreateInfo restricted to the blocks the fixed-function
parse reads (shader stages and layout feed only the compiler call, which the
model treats as an oracle). -/
structure GraphicsPipelineCreateInfo where
  pInputAssemblyState : InputAssemblyCreateInfo
  pViewportState : Option ViewportStateCreateInfo
  pRasterizationState : Option (RasterizationCreateInfo × List RasterizationExt)
  pMultisampleState : Option MultisampleCreateInfo
  pColorBlendState : Option ColorBlendCreateInfo
  pDepthStencilState : Option DepthStencilCreateInfo
  pDynamicStates : Option (List ℕ)
  subpass : ℕ
  renderPass : RenderPassModel

/-- The physical-device limits BuildRasterizationState reads. -/
structure DeviceLimits where
  strictLines : Bool
  pointSizeMin : ℚ
  pointSizeMax : ℚ
  deriving DecidableEq, Repr

/-- Returns true if the given blend factor is a dual source blend factor
(IsDualSourceBlend composed with the VkToPalBlend conversion table, which
maps exactly the four VK_BLEND_FACTOR_*SRC1* values, codes 15-18, to the
Pal::Blend::*Src1* values). -/
def IsDualSourceBlendVk (f : ℕ) : Bool :=
  f == 15 || f == 16 || f == 17 || f == 18

/-- Returns true if src alpha is used in blending (IsSrcAlphaUsedInBlend,
over the numeric VkBlendFactor codes). -/
def IsSrcAlphaUsedInBlend (f : ℕ) : Bool :=
  f == 6 || f == 7 || f == 14 || f == 17 || f == 18

/-- Device::GetDefaultQuadSamplePattern: the built-in default pattern for the
given sample count, or none (null pointer, after VK_NEVER_CALLED fires in
debug builds) for any other count. -/
def GetDefaultQuadSamplePattern (sampleCount : ℕ) : Option QuadPat :=
  match sampleCount with
  | 1 => some QuadPat.default1x
  | 2 => some QuadPat.default2x
  | 4 => some QuadPat.default4x
  | 8 => some QuadPat.default8x
  | 16 => some QuadPat.default16x
  | _ => none

/-- Device::GetDefaultSamplePatternIndex: table index of the default sample
pattern for the given sample count (0, after VK_NEVER_CALLED in debug builds,
for any other count). -/
def GetDefaultSamplePatternIndex (sampleCount : ℕ) : ℕ :=
  match sampleCount with
  | 1 => 0
  | 2 => 1
  | 4 => 2
  | 8 => 3
  | 16 => 4
  | _ => 0

/-- The dynamicStateFlags array built from pDynamicState, packed as a bit
mask over the internal category indices: core values below
VK_DYNAMIC_STATE_RANGE_SIZE map to themselves, the sample-locations extension
value maps to its internal index, anything else is skipped. -/
def buildDynamicStateFlags (l : Option (List ℕ)) : ℕ :=
  match l with
  | none => 0
  | some states =>
    states.foldl
      (fun m s =>
        if s < VK_DYNAMIC_STATE_RANGE_SIZE then setBit m s
        else if s = VK_DYNAMIC_STATE_SAMPLE_LOCATIONS_EXT_VALUE then
          setBit m DynamicStatesInternal.SAMPLE_LOCATIONS_EXT
        else m)
      0

/-- customSampleLocationsOf: whether the chained sample-locations block is
present and enables custom locations. -/
def customSampleLocationsOf (ms : MultisampleCreateInfo) : Bool :=
  match ms.sampleLocationsExt with
  | some sl => sl.sampleLocationsEnable
  | none => false

/-- blendingEnabledOf: true when at least one of the first MaxColorTargets
attachments has a defined subpass color-attachment format and enables
blending (the accumulation of blendingEnabled in the target loop). -/
def blendingEnabledOf (rp : RenderPassModel) (subpass : ℕ) (cb : ColorBlendCreateInfo) : Bool :=
  (cb.attachments.take MaxColorTargets).enum.any
    (fun p => decide (rp.colorAttachmentFormat subpass p.1 ≠ 0) && p.2.blendEnable)

/-- dualSourceBlendOf: the accumulation of dualSourceBlend over the target
loop (computed for every processed target regardless of attachment format). -/
def dualSourceBlendOf (cb : ColorBlendCreateInfo) : Bool :=
  (cb.attachments.take MaxColorTargets).any
    (fun src =>
      IsDualSourceBlendVk src.srcColorBlendFactor || IsDualSourceBlendVk src.dstColorBlendFactor ||
      IsDualSourceBlendVk src.srcAlphaBlendFactor || IsDualSourceBlendVk src.dstAlphaBlendFactor)

/-- The state threaded through the parsing stages of BuildPatchedShaders. -/
structure BuildState where
  ps : PalPipelineState
  immed : ImmedInfo
  msaa : MsaaState
  sampleCoverage : ℕ
  deriving Repr

/-- GraphicsPipeline::BuildRasterizationState: defaults, then the chain walk
over the head rasterization block and its extension blocks. -/
def BuildRasterizationState (limits : DeviceLimits)
    (pIn : Option (RasterizationCreateInfo × List RasterizationExt))
    (dynFlags : ℕ) (st : BuildState) : BuildState :=
  let st := { st with ps := { st.ps with
    rsRasterizerDiscardEnable := true,
    rsPerpLineEndCapsEnable := limits.strictLines } }
  match pIn with
  | none => st
  | some (rs, exts) =>
    let ps := { st.ps with
      vpDepthClipEnable := !rs.depthClampEnable,
      rsRasterizerDiscardEnable := rs.rasterizerDiscardEnable }
    let immed := { st.immed with
      triangleRasterState :=
        { fillMode := rs.polygonMode, cullMode := rs.cullMode,
          frontFace := rs.frontFace, depthBiasEnable := rs.depthBiasEnable },
      depthBiasParams :=
        { depthBias := rs.depthBiasConstantFactor, depthBiasClamp := rs.depthBiasClamp,
          slopeScaledDepthBias := rs.depthBiasSlopeFactor },
      pointLineRasterParams :=
        { lineWidth := rs.lineWidth, pointSize := 1,
          pointSizeMin := limits.pointSizeMin, pointSizeMax := limits.pointSizeMax } }
    let immed :=
      if rs.depthBiasEnable && !(dynFlags.testBit DynamicStatesInternal.DEPTH_BIAS) then
        { immed with staticStateMask := setBit immed.staticStateMask DynamicStatesInternal.DEPTH_BIAS }
      else immed
    let immed :=
      if !(dynFlags.testBit DynamicStatesInternal.LINE_WIDTH) then
        { immed with staticStateMask := setBit immed.staticStateMask DynamicStatesInternal.LINE_WIDTH }
      else immed
    let ps := exts.foldl
      (fun a e =>
        match e with
        | RasterizationExt.rasterizationOrderAMD ord =>
          { a with rsOutOfOrderPrimsEnable := decide (ord ≠ 0) }
        | RasterizationExt.unknownBlock _ => a)
      ps
    { st with ps := ps, immed := immed }

/-- The viewport-state section of BuildPatchedShaders: record counts, bake
the viewport and scissor arrays when their categories are not dynamic. -/
def viewportStage (dynFlags : ℕ) (pVp : Option ViewportStateCreateInfo) (st : BuildState) : BuildState :=
  match pVp with
  | none => st
  | some vp =>
    let immed := { st.immed with
      viewportParams := { st.immed.viewportParams with count := vp.viewportCount },
      scissorRectParams := { st.immed.scissorRectParams with count := vp.scissorCount } }
    let immed :=
      if !(dynFlags.testBit DynamicStatesInternal.VIEWPORT) then
        { immed with
          viewportParams := { count := vp.viewportCount, payload := vp.viewportsPayload },
          staticStateMask := setBit immed.staticStateMask DynamicStatesInternal.VIEWPORT }
      else immed
    let immed :=
      if !(dynFlags.testBit DynamicStatesInternal.SCISSOR) then
        { immed with
          scissorRectParams := { count := vp.scissorCount, payload := vp.scissorsPayload },
          staticStateMask := setBit immed.staticStateMask DynamicStatesInternal.SCISSOR }
      else immed
    { st with immed := immed }

/-- The multisample section of BuildPatchedShaders: sample-count resolution,
pixel-shader sample count, sample-pattern selection and baking. -/
def multisampleStage (rp : RenderPassModel) (subpass : ℕ) (dynFlags : ℕ)
    (pMs : Option MultisampleCreateInfo) (st : BuildState) : BuildState :=
  match pMs with
  | none => st
  | some ms =>
    let st :=
      if ms.rasterizationSamples ≠ 1 then
        let rasterizationSampleCount := ms.rasterizationSamples
        let cov0 := rp.subpassMaxSampleCount subpass
        let col0 := rp.subpassColorSampleCount subpass
        let dep0 := rp.subpassDepthSampleCount subpass
        let subpassCoverageSampleCount := if cov0 = 0 then rasterizationSampleCount else cov0
        let subpassColorSampleCount := if col0 = 0 then subpassCoverageSampleCount else col0
        let subpassDepthSampleCount := if dep0 = 0 then subpassCoverageSampleCount else dep0
        let pixelShaderSamples :=
          if ms.sampleShadingEnable && decide (0 < ms.minSampleShading) then
            Pow2Pad (Int.toNat ⌈(subpassColorSampleCount : ℚ) * ms.minSampleShading⌉)
          else 1
        let msaa := { st.msaa with
          coverageSamples := subpassCoverageSampleCount,
          exposedSamples := subpassCoverageSampleCount,
          pixelShaderSamples := pixelShaderSamples,
          depthStencilSamples := subpassDepthSampleCount,
          shaderExportMaskSamples := subpassCoverageSampleCount,
          sampleMask := (match ms.pSampleMask with
            | some m => m
            | none => 0xffffffff),
          sampleClusters := subpassCoverageSampleCount,
          alphaToCoverageSamples := subpassCoverageSampleCount,
          occlusionQuerySamples := subpassDepthSampleCount }
        let ps := { st.ps with
          rsNumSamples := rasterizationSampleCount,
          rsSamplePatternIdx :=
            GetDefaultSamplePatternIndex subpassCoverageSampleCount * MaxMsaaRasterizerSamples }
        let customSampleLocations := customSampleLocationsOf ms
        let immed :=
          if customSampleLocations &&
              !(dynFlags.testBit DynamicStatesInternal.SAMPLE_LOCATIONS_EXT) then
            match ms.sampleLocationsExt with
            | some sl =>
              { st.immed with
                samplePattern :=
                  { sampleCount := sl.sampleLocationsPerPixel,
                    locations := some (QuadPat.custom sl.locationsPayload) },
                staticStateMask :=
                  setBit st.immed.staticStateMask DynamicStatesInternal.SAMPLE_LOCATIONS_EXT }
            | none => st.immed
          else if !customSampleLocations then
            { st.immed with
              samplePattern :=
                { sampleCount := rasterizationSampleCount,
                  locations := GetDefaultQuadSamplePattern rasterizationSampleCount },
              staticStateMask :=
                setBit st.immed.staticStateMask DynamicStatesInternal.SAMPLE_LOCATIONS_EXT }
          else st.immed
        { ps := ps, immed := immed, msaa := msaa, sampleCoverage := subpassCoverageSampleCount }
      else st
    { st with ps := { st.ps with cbAlphaToCoverageEnable := ms.alphaToCoverageEnable } }

/-- The color-blend section of BuildPatchedShaders: logic op, per-target
blend state, dual-source accumulation, conditional blend-constant baking. -/
def colorBlendStage (rp : RenderPassModel) (subpass : ℕ) (dynFlags : ℕ)
    (pCb : Option ColorBlendCreateInfo) (st : BuildState) : BuildState :=
  match pCb with
  | none => { st with ps := { st.ps with cbLogicOp := 0 } }
  | some cb =>
    let ps := { st.ps with
      cbLogicOp := if cb.logicOpEnable then cb.logicOp else 0,
      cbDualSourceBlendEnable := dualSourceBlendOf cb }
    let immed :=
      if blendingEnabledOf rp subpass cb &&
          !(dynFlags.testBit DynamicStatesInternal.BLEND_CONSTANTS) then
        { st.immed with
          blendConstParams := cb.blendConstants,
          staticStateMask := setBit st.immed.staticStateMask DynamicStatesInternal.BLEND_CONSTANTS }
      else st.immed
    { st with ps := ps, immed := immed }

/-- The depth-stencil section of BuildPatchedShaders: depth/stencil enables
gated on a defined depth-stencil attachment format, conditional depth-bounds
baking, stencil mask baking, reference/mask and bound values. -/
def depthStencilStage (rp : RenderPassModel) (subpass : ℕ) (dynFlags : ℕ)
    (pDs : Option DepthStencilCreateInfo) (st : BuildState) : BuildState :=
  let dbFormatDefined := decide (rp.depthStencilAttachmentFormat subpass ≠ 0)
  let st :=
    match pDs with
    | some ds =>
      if dbFormatDefined then
        let ps := { st.ps with
          dsStencilEnable := ds.stencilTestEnable,
          dsDepthEnable := ds.depthTestEnable,
          dsDepthWriteEnable := ds.depthWriteEnable,
          dsDepthFunc := ds.depthCompareOp,
          dsDepthBoundsEnable := ds.depthBoundsTestEnable }
        let immed :=
          if ds.depthBoundsTestEnable &&
              !(dynFlags.testBit DynamicStatesInternal.DEPTH_BOUNDS) then
            { st.immed with
              staticStateMask := setBit st.immed.staticStateMask DynamicStatesInternal.DEPTH_BOUNDS }
          else st.immed
        let immed :=
          if !(dynFlags.testBit DynamicStatesInternal.STENCIL_COMPARE_MASK) then
            { immed with
              staticStateMask := setBit immed.staticStateMask DynamicStatesInternal.STENCIL_COMPARE_MASK }
          else immed
        let immed :=
          if !(dynFlags.testBit DynamicStatesInternal.STENCIL_WRITE_MASK) then
            { immed with
              staticStateMask := setBit immed.staticStateMask DynamicStatesInternal.STENCIL_WRITE_MASK }
          else immed
        let immed :=
          if !(dynFlags.testBit DynamicStatesInternal.STENCIL_REFERENCE) then
            { immed with
              staticStateMask := setBit immed.staticStateMask DynamicStatesInternal.STENCIL_REFERENCE }
          else immed
        { st with ps := ps, immed := immed }
      else
        { st with ps := { st.ps with
            dsDepthEnable := false, dsDepthWriteEnable := false, dsDepthFunc := 0,
            dsDepthBoundsEnable := false, dsStencilEnable := false } }
    | none =>
      { st with ps := { st.ps with
          dsDepthEnable := false, dsDepthWriteEnable := false, dsDepthFunc := 0,
          dsDepthBoundsEnable := false, dsStencilEnable := false } }
  match pDs with
  | some ds =>
    { st with immed := { st.immed with
        stencilRefMasks :=
          { frontRef := ds.frontReference % 256, frontReadMask := ds.frontCompareMask % 256,
            frontWriteMask := ds.frontWriteMask % 256, frontOpValue := 1,
            backRef := ds.backReference % 256, backReadMask := ds.backCompareMask % 256,
            backWriteMask := ds.backWriteMask % 256, backOpValue := 1 },
        depthBoundParams := { min := ds.minDepthBounds, max := ds.maxDepthBounds } } }
  | none =>
    { st with immed := { st.immed with
        stencilRefMasks := { st.immed.stencilRefMasks with frontOpValue := 1, backOpValue := 1 } } }

/-- The fixed-function parse of GraphicsPipeline::BuildPatchedShaders (the
block guarded by result == VK_SUCCESS): input assembly, dynamic-state flags,
viewport, rasterization, multisample, color blend, depth stencil, multiview. -/
def buildPatchedShadersParsed (limits : DeviceLimits) (pIn : GraphicsPipelineCreateInfo) : BuildState :=
  let dynFlags := buildDynamicStateFlags pIn.pDynamicStates
  let ia := pIn.pInputAssemblyState
  let immed := { ImmedInfo.init with
    inputAssemblyState :=
      { topology := ia.topology,
        primitiveRestartEnable := ia.primitiveRestartEnable,
        primitiveRestartIndex := if ia.primitiveRestartEnable then 0xFFFFFFFF else 0 },
    staticStateMask := 0 }
  let st : BuildState :=
    { ps := PalPipelineState.init, immed := immed, msaa := MsaaState.defaults, sampleCoverage := 1 }
  let st := viewportStage dynFlags pIn.pViewportState st
  let st := BuildRasterizationState limits pIn.pRasterizationState dynFlags st
  let st := multisampleStage pIn.renderPass pIn.subpass dynFlags pIn.pMultisampleState st
  let st := colorBlendStage pIn.renderPass pIn.subpass dynFlags pIn.pColorBlendState st
  let st := depthStencilStage pIn.renderPass pIn.subpass dynFlags pIn.pDepthStencilState st
  { st with ps := { st.ps with viewInstancingEnabled := pIn.renderPass.multiviewEnabled } }

/-- The environment oracles of BuildPatchedShaders: whether the temporary
descriptor-mapping allocation succeeds and whether the external compiler call
succeeds. -/
structure BuildEnv where
  limits : DeviceLimits
  tempAllocOk : Bool
  compilerOk : Bool

/-- The outcome of GraphicsPipeline::BuildPatchedShaders. -/
structure BuildOutcome where
  result : VkResult
  state : BuildState

/-- GraphicsPipeline::BuildPatchedShaders: an out-of-host-memory failure on
the temporary buffer skips the whole parse; otherwise the fixed-function
state is parsed (which itself never fails) and a compiler failure maps to
VK_ERROR_INITIALIZATION_FAILED. -/
def buildPatchedShaders (env : BuildEnv) (pIn : GraphicsPipelineCreateInfo) : BuildOutcome :=
  if env.tempAllocOk then
    { result := if env.compilerOk then VkResult.success else VkResult.errorInitializationFailed,
      state := buildPatchedShadersParsed env.limits pIn }
  else
    { result := VkResult.errorOutOfHostMemory,
      state := { ps := PalPipelineState.init, immed := ImmedInfo.init,
                 msaa := MsaaState.defaults, sampleCoverage := 1 } }

/-- The per-category token fields of ImmedInfo::staticTokens. -/
structure StaticTokens where
  inputAssemblyState : ℕ
  triangleRasterState : ℕ
  pointLineRasterState : ℕ
  depthBias : ℕ
  blendConst : ℕ
  depthBounds : ℕ
  viewport : ℕ
  scissorRect : ℕ
  samplePattern : ℕ
  deriving DecidableEq, Repr

/-- The per-category last-bound token fields of the command stream
(CmdBufferRenderState::allGpuState.staticTokens). -/
structure BoundTokens where
  inputAssemblyState : ℕ
  triangleRasterState : ℕ
  pointLineRasterState : ℕ
  depthBiasState : ℕ
  blendConst : ℕ
  depthBounds : ℕ
  viewports : ℕ
  scissorRect : ℕ
  samplePattern : ℕ
  deriving DecidableEq, Repr

/-- The per-category maps of the device RenderStateCache used by
CreateStaticState / DestroyStaticState. -/
structure RenderStateCacheModel where
  iaCache : StateCache InputAssemblyState
  triCache : StateCache TriangleRasterState
  plCache : StateCache PointLineRasterParams
  dbCache : StateCache DepthBiasParams
  bcCache : StateCache ℕ
  boundsCache : StateCache DepthBoundParams
  vpCache : StateCache ViewportParams
  scCache : StateCache ScissorRectParams
  spCache : StateCache SamplePattern
  deriving Repr

/-- All category maps of a RenderStateCacheModel are well formed. -/
def RenderStateCacheModel.wfAll (c : RenderStateCacheModel) : Prop :=
  c.iaCache.wf ∧ c.triCache.wf ∧ c.plCache.wf ∧ c.dbCache.wf ∧ c.bcCache.wf ∧
  c.boundsCache.wf ∧ c.vpCache.wf ∧ c.scCache.wf ∧ c.spCache.wf

/-- GraphicsPipeline::CreateStaticState: input-assembly and triangle-raster
tokens always come from the cache; the seven conditionally-baked categories
start at the dynamic sentinel and are assigned a cache token exactly when
PipelineSetsState (their bit of staticStateMask) holds.  Each category uses
its own independent map of the cache. -/
def createStaticState (cache : RenderStateCacheModel) (info : ImmedInfo) :
    StaticTokens × RenderStateCacheModel :=
  let ia := cache.iaCache.create info.inputAssemblyState
  let tri := cache.triCache.create info.triangleRasterState
  let pl :=
    if info.staticStateMask.testBit DynamicStatesInternal.LINE_WIDTH then
      cache.plCache.create info.pointLineRasterParams
    else (DynamicRenderStateToken, cache.plCache)
  let db :=
    if info.staticStateMask.testBit DynamicStatesInternal.DEPTH_BIAS then
      cache.dbCache.create info.depthBiasParams
    else (DynamicRenderStateToken, cache.dbCache)
  let bc :=
    if info.staticStateMask.testBit DynamicStatesInternal.BLEND_CONSTANTS then
      cache.bcCache.create info.blendConstParams
    else (DynamicRenderStateToken, cache.bcCache)
  let bounds :=
    if info.staticStateMask.testBit DynamicStatesInternal.DEPTH_BOUNDS then
      cache.boundsCache.create info.depthBoundParams
    else (DynamicRenderStateToken, cache.boundsCache)
  let vp :=
    if info.staticStateMask.testBit DynamicStatesInternal.VIEWPORT then
      cache.vpCache.create info.viewportParams
    else (DynamicRenderStateToken, cache.vpCache)
  let sc :=
    if info.staticStateMask.testBit DynamicStatesInternal.SCISSOR then
      cache.scCache.create info.scissorRectParams
    else (DynamicRenderStateToken, cache.scCache)
  let sp :=
    if info.staticStateMask.testBit DynamicStatesInternal.SAMPLE_LOCATIONS_EXT then
      cache.spCache.create info.samplePattern
    else (DynamicRenderStateToken, cache.spCache)
  ({ inputAssemblyState := ia.1, triangleRasterState := tri.1, pointLineRasterState := pl.1,
     depthBias := db.1, blendConst := bc.1, depthBounds := bounds.1,
     viewport := vp.1, scissorRect := sc.1, samplePattern := sp.1 },
   { iaCache := ia.2, triCache := tri.2, plCache := pl.2, dbCache := db.2, bcCache := bc.2,
     boundsCache := bounds.2, vpCache := vp.2, scCache := sc.2, spCache := sp.2 })

/-- GraphicsPipeline::DestroyStaticState: every category is released
unconditionally with its stored token (releasing the dynamic sentinel is a
no-op inside the cache). -/
def destroyStaticState (cache : RenderStateCacheModel) (info : ImmedInfo)
    (toks : StaticTokens) : RenderStateCacheModel where
  iaCache := cache.iaCache.destroyState info.inputAssemblyState toks.inputAssemblyState
  triCache := cache.triCache.destroyState info.triangleRasterState toks.triangleRasterState
  plCache := cache.plCache.destroyState info.pointLineRasterParams toks.pointLineRasterState
  dbCache := cache.dbCache.destroyState info.depthBiasParams toks.depthBias
  bcCache := cache.bcCache.destroyState info.blendConstParams toks.blendConst
  boundsCache := cache.boundsCache.destroyState info.depthBoundParams toks.depthBounds
  vpCache := cache.vpCache.destroyState info.viewportParams toks.viewport
  scCache := cache.scCache.destroyState info.scissorRectParams toks.scissorRect
  spCache := cache.spCache.destroyState info.samplePattern toks.samplePattern

/-- The bind-time view of a created pipeline: its static-state mask, its
static tokens, its viewport/scissor parameter blocks, and its per-device PAL
pipeline content hash. -/
structure GraphicsPipelineModel where
  staticStateMask : ℕ
  staticTokens : StaticTokens
  viewportParams : ViewportParams
  scissorRectParams : ScissorRectParams
  pipelineHash : ℕ → ℕ

/-- The per-command-stream render state read and written by BindToCmdBuffer:
last-bound viewport/scissor counts and cached full arrays, last-bound static
tokens, and the per-device content hash of the currently bound pipeline
(none models a null allGpuState.pGraphicsPipeline). -/
structure CmdBufferRenderState where
  viewportCount : ℕ
  viewportPayload : ℕ
  scissorCount : ℕ
  scissorPayload : ℕ
  staticTokens : BoundTokens
  boundPipelineHash : Option (ℕ → ℕ)

/-- Modelled from the spec: GraphicsPipeline::PipelineSetsState (declared in
the pipeline header, outside the available sources) reports whether a state
category was baked statically, i.e. whether its bit of staticStateMask is
set. -/
def pipelineSetsState (p : GraphicsPipelineModel) (c : ℕ) : Bool :=
  p.staticStateMask.testBit c

/-- Modelled from the spec: CmdBuffer::IsStaticStateDifferent (declared in
the command-buffer header, outside the available sources): a static-state
write is redundant exactly when the last-bound token equals the new token. -/
def IsStaticStateDifferent (oldToken newToken : ℕ) : Bool :=
  oldToken != newToken

/-- The command-stream writes BindToCmdBuffer can emit, tagged with the
device index for per-device writes. -/
inductive BindCmd where
  | bindPipeline (deviceIdx : ℕ)
  | setAllViewports
  | setAllScissors
  | bindDepthStencil (deviceIdx : ℕ)
  | bindColorBlend (deviceIdx : ℕ)
  | bindMsaa (deviceIdx : ℕ)
  | setInputAssembly (deviceIdx : ℕ)
  | setTriangleRaster (deviceIdx : ℕ)
  | setPointLineRaster (deviceIdx : ℕ)
  | setDepthBias (deviceIdx : ℕ)
  | setBlendConst (deviceIdx : ℕ)
  | setDepthBounds (deviceIdx : ℕ)
  | setSamplePattern (deviceIdx : ℕ)
  | setViewports (deviceIdx : ℕ)
  | setScissorRects (deviceIdx : ℕ)
  deriving DecidableEq, Repr

/-- Whether a command is one of the static-state set commands subject to
token-based redundancy elimination (the mandatory pipeline bind and the
always-bound state-object binds are not). -/
def isStaticStateSetCmd : BindCmd → Bool
  | BindCmd.setAllViewports => true
  | BindCmd.setAllScissors => true
  | BindCmd.setInputAssembly _ => true
  | BindCmd.setTriangleRaster _ => true
  | BindCmd.setPointLineRaster _ => true
  | BindCmd.setDepthBias _ => true
  | BindCmd.setBlendConst _ => true
  | BindCmd.setDepthBounds _ => true
  | BindCmd.setSamplePattern _ => true
  | BindCmd.setViewports _ => true
  | BindCmd.setScissorRects _ => true
  | _ => false

/-- The commands the body of the per-device loop of BindToCmdBuffer emits for
one device: the pipeline bind when the per-device content hash differs from
the previously bound pipeline (or none was bound), the three always-bound
state objects, the token-gated static-state writes (all compared against the
token snapshot taken before the loop), and the count-dirty viewport/scissor
re-emissions. -/
def bindOneDeviceCmds (p : GraphicsPipelineModel) (old : BoundTokens)
    (prevHash : Option (ℕ → ℕ)) (vpCountDirty scCountDirty : Bool) (d : ℕ) : List BindCmd :=
  (match prevHash with
   | some h => if h d ≠ p.pipelineHash d then [BindCmd.bindPipeline d] else []
   | none => [BindCmd.bindPipeline d]) ++
  [BindCmd.bindDepthStencil d, BindCmd.bindColorBlend d, BindCmd.bindMsaa d] ++
  (if IsStaticStateDifferent old.inputAssemblyState p.staticTokens.inputAssemblyState then
    [BindCmd.setInputAssembly d] else []) ++
  (if IsStaticStateDifferent old.triangleRasterState p.staticTokens.triangleRasterState then
    [BindCmd.setTriangleRaster d] else []) ++
  (if pipelineSetsState p DynamicStatesInternal.LINE_WIDTH &&
      IsStaticStateDifferent old.pointLineRasterState p.staticTokens.pointLineRasterState then
    [BindCmd.setPointLineRaster d] else []) ++
  (if pipelineSetsState p DynamicStatesInternal.DEPTH_BIAS &&
      IsStaticStateDifferent old.depthBiasState p.staticTokens.depthBias then
    [BindCmd.setDepthBias d] else []) ++
  (if pipelineSetsState p DynamicStatesInternal.BLEND_CONSTANTS &&
      IsStaticStateDifferent old.blendConst p.staticTokens.blendConst then
    [BindCmd.setBlendConst d] else []) ++
  (if pipelineSetsState p DynamicStatesInternal.DEPTH_BOUNDS &&
      IsStaticStateDifferent old.depthBounds p.staticTokens.depthBounds then
    [BindCmd.setDepthBounds d] else []) ++
  (if pipelineSetsState p DynamicStatesInternal.SAMPLE_LOCATIONS_EXT &&
      IsStaticStateDifferent old.samplePattern p.staticTokens.samplePattern then
    [BindCmd.setSamplePattern d] else []) ++
  (if vpCountDirty then [BindCmd.setViewports d] else []) ++
  (if scCountDirty then [BindCmd.setScissorRects d] else [])

/-- The token updates the body of the per-device loop applies to the
command-stream render state (each write of a static-state command also
records its token; comparisons always use the pre-loop snapshot). -/
def bindOneDeviceTokens (p : GraphicsPipelineModel) (old : BoundTokens)
    (cur : BoundTokens) : BoundTokens where
  inputAssemblyState :=
    if IsStaticStateDifferent old.inputAssemblyState p.staticTokens.inputAssemblyState then
      p.staticTokens.inputAssemblyState
    else cur.inputAssemblyState
  triangleRasterState :=
    if IsStaticStateDifferent old.triangleRasterState p.staticTokens.triangleRasterState then
      p.staticTokens.triangleRasterState
    else cur.triangleRasterState
  pointLineRasterState :=
    if pipelineSetsState p DynamicStatesInternal.LINE_WIDTH &&
        IsStaticStateDifferent old.pointLineRasterState p.staticTokens.pointLineRasterState then
      p.staticTokens.pointLineRasterState
    else cur.pointLineRasterState
  depthBiasState :=
    if pipelineSetsState p DynamicStatesInternal.DEPTH_BIAS &&
        IsStaticStateDifferent old.depthBiasState p.staticTokens.depthBias then
      p.staticTokens.depthBias
    else cur.depthBiasState
  blendConst :=
    if pipelineSetsState p DynamicStatesInternal.BLEND_CONSTANTS &&
        IsStaticStateDifferent old.blendConst p.staticTokens.blendConst then
      p.staticTokens.blendConst
    else cur.blendConst
  depthBounds :=
    if pipelineSetsState p DynamicStatesInternal.DEPTH_BOUNDS &&
        IsStaticStateDifferent old.depthBounds p.staticTokens.depthBounds then
      p.staticTokens.depthBounds
    else cur.depthBounds
  viewports := cur.viewports
  scissorRect := cur.scissorRect
  samplePattern :=
    if pipelineSetsState p DynamicStatesInternal.SAMPLE_LOCATIONS_EXT &&
        IsStaticStateDifferent old.samplePattern p.staticTokens.samplePattern then
      p.staticTokens.samplePattern
    else cur.samplePattern

/-- One iteration of the per-device loop of BindToCmdBuffer. -/
def bindOneDevice (p : GraphicsPipelineModel) (old : BoundTokens)
    (prevHash : Option (ℕ → ℕ)) (vpCountDirty scCountDirty : Bool) (d : ℕ)
    (rs : CmdBufferRenderState) : CmdBufferRenderState × List BindCmd :=
  ({ rs with staticTokens := bindOneDeviceTokens p old rs.staticTokens },
   bindOneDeviceCmds p old prevHash vpCountDirty scCountDirty d)

/-- The per-device loop of BindToCmdBuffer over the active device mask
(utils::IterateMask, modelled as the ordered list of set device indices). -/
def deviceLoop (p : GraphicsPipelineModel) (old : BoundTokens)
    (prevHash : Option (ℕ → ℕ)) (vpCountDirty scCountDirty : Bool) :
    List ℕ → CmdBufferRenderState → CmdBufferRenderState × List BindCmd
  | [], rs => (rs, [])
  | d :: ds, rs =>
    let one := bindOneDevice p old prevHash vpCountDirty scCountDirty d rs
    let rest := deviceLoop p old prevHash vpCountDirty scCountDirty ds one.1
    (rest.1, one.2 ++ rest.2)

/-- The render-state updates of the head viewport/scissor writes of
BindToCmdBuffer: SetAllViewports / SetAllScissors record the pipeline's full
array values and their tokens on the command stream. -/
def bindHeadState (p : GraphicsPipelineModel) (vpHit scHit : Bool)
    (rs1 : CmdBufferRenderState) : CmdBufferRenderState :=
  let rs2 :=
    if vpHit then
      { rs1 with
        viewportPayload := p.viewportParams.payload,
        staticTokens := { rs1.staticTokens with viewports := p.staticTokens.viewport } }
    else rs1
  if scHit then
    { rs2 with
      scissorPayload := p.scissorRectParams.payload,
      staticTokens := { rs2.staticTokens with scissorRect := p.staticTokens.scissorRect } }
  else rs2

/-- GraphicsPipeline::BindToCmdBuffer: count-dirty detection and count
update, the token snapshot, the head viewport/scissor writes (SetAllViewports
/ SetAllScissors update both the cached arrays and the bound tokens and clear
the corresponding count-dirty flag), then the per-device loop.  The trailing
stencil-combiner section performs value-level (not token-level) redundancy
checks inside the combiner and is outside the modelled command set. -/
def bindToCmdBuffer (deviceMask : List ℕ) (p : GraphicsPipelineModel)
    (rs : CmdBufferRenderState) : CmdBufferRenderState × List BindCmd :=
  let vpCountDirty0 := rs.viewportCount != p.viewportParams.count
  let scCountDirty0 := rs.scissorCount != p.scissorRectParams.count
  let rs1 := { rs with
    viewportCount := p.viewportParams.count,
    scissorCount := p.scissorRectParams.count }
  let old := rs1.staticTokens
  let vpHit := pipelineSetsState p DynamicStatesInternal.VIEWPORT &&
    IsStaticStateDifferent old.viewports p.staticTokens.viewport
  let scHit := pipelineSetsState p DynamicStatesInternal.SCISSOR &&
    IsStaticStateDifferent old.scissorRect p.staticTokens.scissorRect
  let rs3 := bindHeadState p vpHit scHit rs1
  let vpCountDirty := vpCountDirty0 && !vpHit
  let scCountDirty := scCountDirty0 && !scHit
  let headCmds :=
    (if vpHit then [BindCmd.setAllViewports] else []) ++
    (if scHit then [BindCmd.setAllScissors] else [])
  let loop := deviceLoop p old rs.boundPipelineHash vpCountDirty scCountDirty deviceMask rs3
  (loop.1, headCmds ++ loop.2)

/-- The environment oracles of the multi-device section of
GraphicsPipeline::Create: the device-group size, the per-device success of
the native pipeline and of the three per-category state-object creations,
and the success of the backing allocation. -/
structure MultiDeviceEnv where
  numPalDevices : ℕ
  createGraphicsPipelineOk : ℕ → Bool
  createMsaaStateOk : ℕ → Bool
  createColorBlendStateOk : ℕ → Bool
  createDepthStencilStateOk : ℕ → Bool
  allocOk : Bool

/-- The observable outcome of GraphicsPipeline::Create: the returned result,
the device indices whose native pipeline object was constructed, the device
indices destroyed by the rollback path, whether the backing allocation was
freed by the rollback path, and whether a pipeline handle was written to the
output parameter. -/
structure CreateOutcome where
  result : VkResult
  constructedPipelines : List ℕ
  destroyedPipelines : List ℕ
  systemMemFreed : Bool
  handleWritten : Bool
  deriving DecidableEq, Repr

/-- One iteration of the per-device creation loop of
GraphicsPipeline::Create.  A native-pipeline failure is folded into result
via PalToVkResult; the source assigns the Pal result of the three
state-object creations to a local (palResult) that is never read afterwards,
so those calls cannot change result. -/
def createDeviceStep (env : MultiDeviceEnv) (acc : VkResult × List ℕ) (deviceIdx : ℕ) :
    VkResult × List ℕ :=
  if acc.1 = VkResult.success then
    if env.createGraphicsPipelineOk deviceIdx then
      let _palResultMsaa := env.createMsaaStateOk deviceIdx
      let _palResultColorBlend := env.createColorBlendStateOk deviceIdx
      let _palResultDepthStencil := env.createDepthStencilStateOk deviceIdx
      (VkResult.success, acc.2 ++ [deviceIdx])
    else (VkResult.errorPalFailure, acc.2)
  else acc

/-- The multi-device section of GraphicsPipeline::Create, starting from the
result of BuildPatchedShaders: size query and backing allocation, the
sequential per-device creation loop, then either wrapping the object and
writing the handle, or the rollback path (destroy every non-null per-device
pipeline object and free the backing allocation). -/
def graphicsPipelineCreate (env : MultiDeviceEnv) (buildShadersResult : VkResult) : CreateOutcome :=
  let r1 :=
    if buildShadersResult = VkResult.success ∧ env.allocOk = false then
      VkResult.errorOutOfHostMemory
    else buildShadersResult
  let loopOut := (List.range env.numPalDevices).foldl (createDeviceStep env) (r1, [])
  if loopOut.1 = VkResult.success then
    { result := VkResult.success, constructedPipelines := loopOut.2, destroyedPipelines := [],
      systemMemFreed := false, handleWritten := true }
  else
    { result := loopOut.1, constructedPipelines := loopOut.2, destroyedPipelines := loopOut.2,
      systemMemFreed := true, handleWritten := false }

/-- A pipeline with every dynamic-state category baked static (the bit of
every category is set in the static-state mask). -/
def allCategoriesStatic (p : GraphicsPipelineModel) : Prop :=
  pipelineSetsState p DynamicStatesInternal.VIEWPORT = true ∧
  pipelineSetsState p DynamicStatesInternal.SCISSOR = true ∧
  pipelineSetsState p DynamicStatesInternal.LINE_WIDTH = true ∧
  pipelineSetsState p DynamicStatesInternal.DEPTH_BIAS = true ∧
  pipelineSetsState p DynamicStatesInternal.BLEND_CONSTANTS = true ∧
  pipelineSetsState p DynamicStatesInternal.DEPTH_BOUNDS = true ∧
  pipelineSetsState p DynamicStatesInternal.SAMPLE_LOCATIONS_EXT = true

/- Concrete instances used by closed evaluation theorems and witnesses. -/

/-- A two-device group where both native pipeline creations succeed but the
MSAA state-object creation fails on device index 1. -/
def envStateObjFailDev1 : MultiDeviceEnv where
  numPalDevices := 2
  createGraphicsPipelineOk := fun _ => true
  createMsaaStateOk := fun d => decide (d ≠ 1)
  createColorBlendStateOk := fun _ => true
  createDepthStencilStateOk := fun _ => true
  allocOk := true

/-- A render pass whose subpass 0 has 4-sample color/depth/coverage and a
defined color attachment format at every target, and no depth-stencil
attachment. -/
def exampleRenderPass : RenderPassModel where
  colorAttachmentFormat := fun _ _ => 1
  subpassMaxSampleCount := fun _ => 4
  subpassColorSampleCount := fun _ => 4
  subpassDepthSampleCount := fun _ => 4
  depthStencilAttachmentFormat := fun _ => 0
  multiviewEnabled := false

/-- Example device limits. -/
def exampleLimits : DeviceLimits where
  strictLines := false
  pointSizeMin := 1
  pointSizeMax := 64

/-- Example rasterization block with depth bias enabled. -/
def exampleRasterization : RasterizationCreateInfo where
  depthClampEnable := false
  rasterizerDiscardEnable := false
  polygonMode := 0
  cullMode := 0
  frontFace := 0
  depthBiasEnable := true
  depthBiasConstantFactor := 1
  depthBiasClamp := 0
  depthBiasSlopeFactor := 0
  lineWidth := 1

/-- Example color target with blending enabled. -/
def exampleAttachment : ColorBlendAttachmentState where
  blendEnable := true
  srcColorBlendFactor := 1
  dstColorBlendFactor := 1
  colorBlendOp := 0
  srcAlphaBlendFactor := 1
  dstAlphaBlendFactor := 1
  alphaBlendOp := 0
  colorWriteMask := 15

/-- Example multisample block: 4 rasterization samples, sample shading at
minimum shading ratio one half. -/
def exampleMultisample : MultisampleCreateInfo where
  rasterizationSamples := 4
  sampleShadingEnable := true
  minSampleShading := 1 / 2
  pSampleMask := none
  alphaToCoverageEnable := false
  sampleLocationsExt := none

/-- Multisample block with the unsupported rasterization sample count 32. -/
def exampleMultisample32 : MultisampleCreateInfo where
  rasterizationSamples := 32
  sampleShadingEnable := false
  minSampleShading := 0
  pSampleMask := none
  alphaToCoverageEnable := false
  sampleLocationsExt := none

/-- Multisample block with the unsupported rasterization sample count 6. -/
def exampleMultisample6 : MultisampleCreateInfo where
  rasterizationSamples := 6
  sampleShadingEnable := false
  minSampleShading := 0
  pSampleMask := none
  alphaToCoverageEnable := false
  sampleLocationsExt := none

/-- Example pipeline create info: primitive restart on, one static viewport
and scissor, static depth bias, 4-sample shading, one blending color target,
no dynamic states. -/
def exampleCreateInfo : GraphicsPipelineCreateInfo where
  pInputAssemblyState := { topology := 3, primitiveRestartEnable := true }
  pViewportState := some { viewportCount := 1, scissorCount := 1, viewportsPayload := 7, scissorsPayload := 8 }
  pRasterizationState := some (exampleRasterization, [])
  pMultisampleState := some exampleMultisample
  pColorBlendState := some
    { logicOpEnable := false, logicOp := 0, attachments := [exampleAttachment], blendConstants := 99 }
  pDepthStencilState := none
  pDynamicStates := none
  subpass := 0
  renderPass := exampleRenderPass

/-- The example create info with rasterization sample count 32. -/
def exampleCreateInfo32 : GraphicsPipelineCreateInfo :=
  { exampleCreateInfo with pMultisampleState := some exampleMultisample32 }

/-- The example create info with rasterization sample count 6. -/
def exampleCreateInfo6 : GraphicsPipelineCreateInfo :=
  { exampleCreateInfo with pMultisampleState := some exampleMultisample6 }

/-- A build environment where the temporary allocation and the compiler both
succeed. -/
def exampleBuildEnv : BuildEnv where
  limits := exampleLimits
  tempAllocOk := true
  compilerOk := true

/-- A single-device group where every creation succeeds. -/
def exampleGoodDeviceEnv : MultiDeviceEnv where
  numPalDevices := 1
  createGraphicsPipelineOk := fun _ => true
  createMsaaStateOk := fun _ => true
  createColorBlendStateOk := fun _ => true
  createDepthStencilStateOk := fun _ => true
  allocOk := true

/-- A fully static example pipeline for the bind model. -/
def examplePipeline : GraphicsPipelineModel where
  staticStateMask := 1023
  staticTokens :=
    { inputAssemblyState := 11, triangleRasterState := 12, pointLineRasterState := 13,
      depthBias := 14, blendConst := 15, depthBounds := 16, viewport := 17,
      scissorRect := 18, samplePattern := 19 }
  viewportParams := { count := 2, payload := 100 }
  scissorRectParams := { count := 2, payload := 200 }
  pipelineHash := fun _ => 42

/-- A fresh example render state with no bound pipeline, no matching tokens
and different viewport/scissor counts. -/
def exampleRenderState : CmdBufferRenderState where
  viewportCount := 3
  viewportPayload := 0
  scissorCount := 3
  scissorPayload := 0
  staticTokens :=
    { inputAssemblyState := 0, triangleRasterState := 0, pointLineRasterState := 0,
      depthBiasState := 0, blendConst := 0, depthBounds := 0, viewports := 0,
      scissorRect := 0, samplePattern := 0 }
  boundPipelineHash := none

/-- An empty, well-formed category cache. -/
def emptyStateCache (α : Type) : StateCache α where
  entries := []
  nextToken := 1

/-- An empty, well-formed render-state cache. -/
def emptyRenderStateCache : RenderStateCacheModel where
  iaCache := emptyStateCache InputAssemblyState
  triCache := emptyStateCache TriangleRasterState
  plCache := emptyStateCache PointLineRasterParams
  dbCache := emptyStateCache DepthBiasParams
  bcCache := emptyStateCache ℕ
  boundsCache := emptyStateCache DepthBoundParams
  vpCache := emptyStateCache ViewportParams
  scCache := emptyStateCache ScissorRectParams
  spCache := emptyStateCache SamplePattern

/-- The bound-token state a command stream reaches once it is fully synced to
a pipeline whose categories are all static. -/
def boundTokensOf (p : GraphicsPipelineModel) : BoundTokens where
  inputAssemblyState := p.staticTokens.inputAssemblyState
  triangleRasterState := p.staticTokens.triangleRasterState
  pointLineRasterState := p.staticTokens.pointLineRasterState
  depthBiasState := p.staticTokens.depthBias
  blendConst := p.staticTokens.blendConst
  depthBounds := p.staticTokens.depthBounds
  viewports := p.staticTokens.viewport
  scissorRect := p.staticTokens.scissorRect
  samplePattern := p.staticTokens.samplePattern

/- ------------------------------------------------------------------ -/
/- Theorems.                                                          -/
/- ------------------------------------------------------------------ -/

theorem viewportStage_inputAssemblyState (dynFlags : ℕ) (pVp : Option ViewportStateCreateInfo)
    (st : BuildState) :
    (viewportStage dynFlags pVp st).immed.inputAssemblyState = st.immed.inputAssemblyState := by
  unfold viewportStage
  cases pVp
  · rfl
  · simp only []
    split_ifs <;> rfl

theorem BuildRasterizationState_inputAssemblyState (limits : DeviceLimits)
    (pIn : Option (RasterizationCreateInfo × List RasterizationExt)) (dynFlags : ℕ)
    (st : BuildState) :
    (BuildRasterizationState limits pIn dynFlags st).immed.inputAssemblyState =
      st.immed.inputAssemblyState := by
  unfold BuildRasterizationState
  cases pIn with
  | none => rfl
  | some pr =>
    simp only []
    split_ifs <;> rfl

theorem multisampleStage_inputAssemblyState (rp : RenderPassModel) (subpass dynFlags : ℕ)
    (pMs : Option MultisampleCreateInfo) (st : BuildState) :
    (multisampleStage rp subpass dynFlags pMs st).immed.inputAssemblyState =
      st.immed.inputAssemblyState := by
  unfold multisampleStage
  cases pMs with
  | none => rfl
  | some ms =>
    simp only []
    split_ifs <;> (try rfl) <;> (try (cases ms.sampleLocationsExt <;> rfl))

theorem colorBlendStage_inputAssemblyState (rp : RenderPassModel) (subpass dynFlags : ℕ)
    (pCb : Option ColorBlendCreateInfo) (st : BuildState) :
    (colorBlendStage rp subpass dynFlags pCb st).immed.inputAssemblyState =
      st.immed.inputAssemblyState := by
  unfold colorBlendStage
  cases pCb with
  | none => rfl
  | some cb =>
    simp only []
    split_ifs <;> rfl

theorem depthStencilStage_inputAssemblyState (rp : RenderPassModel) (subpass dynFlags : ℕ)
    (pDs : Option DepthStencilCreateInfo) (st : BuildState) :
    (depthStencilStage rp subpass dynFlags pDs st).immed.inputAssemblyState =
      st.immed.inputAssemblyState := by
  unfold depthStencilStage
  cases pDs with
  | none => rfl
  | some ds =>
    simp only []
    split_ifs <;> rfl

theorem colorBlendStage_samplePattern (rp : RenderPassModel) (subpass dynFlags : ℕ)
    (pCb : Option ColorBlendCreateInfo) (st : BuildState) :
    (colorBlendStage rp subpass dynFlags pCb st).immed.samplePattern = st.immed.samplePattern := by
  unfold colorBlendStage
  cases pCb with
  | none => rfl
  | some cb =>
    simp only []
    split_ifs <;> rfl

theorem depthStencilStage_samplePattern (rp : RenderPassModel) (subpass dynFlags : ℕ)
    (pDs : Option DepthStencilCreateInfo) (st : BuildState) :
    (depthStencilStage rp subpass dynFlags pDs st).immed.samplePattern = st.immed.samplePattern := by
  unfold depthStencilStage
  cases pDs with
  | none => rfl
  | some ds =>
    simp only []
    split_ifs <;> rfl

theorem multisampleStage_samplePattern_default (rp : RenderPassModel) (subpass dynFlags : ℕ)
    (ms : MultisampleCreateInfo) (st : BuildState)
    (hne : ms.rasterizationSamples ≠ 1)
    (hcustom : customSampleLocationsOf ms = false) :
    (multisampleStage rp subpass dynFlags (some ms) st).immed.samplePattern =
      { sampleCount := ms.rasterizationSamples,
        locations := GetDefaultQuadSamplePattern ms.rasterizationSamples } := by
  unfold multisampleStage
  simp [hcustom, hne]

theorem GetDefaultQuadSamplePattern_isSome (n : ℕ) :
    (GetDefaultQuadSamplePattern n).isSome = true ↔
      (n = 1 ∨ n = 2 ∨ n = 4 ∨ n = 8 ∨ n = 16) := by
  constructor
  · intro h
    unfold GetDefaultQuadSamplePattern at h
    split at h <;> simp_all
  · intro h
    rcases h with h | h | h | h | h <;> subst h <;> rfl

theorem buildPatchedShadersParsed_samplePattern_default (limits : DeviceLimits)
    (pIn : GraphicsPipelineCreateInfo) (ms : MultisampleCreateInfo)
    (hms : pIn.pMultisampleState = some ms)
    (hne : ms.rasterizationSamples ≠ 1)
    (hcustom : customSampleLocationsOf ms = false) :
    (buildPatchedShadersParsed limits pIn).immed.samplePattern =
      { sampleCount := ms.rasterizationSamples,
        locations := GetDefaultQuadSamplePattern ms.rasterizationSamples } := by
  unfold buildPatchedShadersParsed
  rw [depthStencilStage_samplePattern, colorBlendStage_samplePattern, hms,
    multisampleStage_samplePattern_default _ _ _ _ _ hne hcustom]

namespace StateCache

variable {α : Type} [DecidableEq α]

theorem find?_bumpEntry (l : List (α × ℕ × ℕ)) (v : α) :
    (bumpEntry l v).find? (fun e => decide (e.1 = v)) =
      (l.find? (fun e => decide (e.1 = v))).map (fun e => (e.1, e.2.1, e.2.2 + 1)) := by
  induction l with
  | nil => rfl
  | cons e rest ih =>
    by_cases h : e.1 = v
    · simp [bumpEntry, List.find?_cons, h]
    · simp [bumpEntry, List.find?_cons, h, ih]

theorem find?_releaseEntry (l : List (α × ℕ × ℕ)) (v : α) (e0 : α × ℕ × ℕ)
    (hfind : l.find? (fun e => decide (e.1 = v)) = some e0) (h2 : 2 ≤ e0.2.2) :
    (releaseEntry l v).find? (fun e => decide (e.1 = v)) =
      some (e0.1, e0.2.1, e0.2.2 - 1) := by
  induction l with
  | nil => simp at hfind
  | cons e rest ih =>
    by_cases h : e.1 = v
    · rw [List.find?_cons_of_pos _ (by simpa using h)] at hfind
      simp only [Option.some.injEq] at hfind
      subst hfind
      have hle : ¬ e.2.2 ≤ 1 := by omega
      simp only [releaseEntry, if_pos h, if_neg hle]
      exact List.find?_cons_of_pos _ (by simpa using h)
    · rw [List.find?_cons_of_neg _ (by simpa using h)] at hfind
      simp only [releaseEntry, if_neg h]
      rw [List.find?_cons_of_neg _ (by simpa using h)]
      exact ih hfind

theorem one_le_create_fst (s : StateCache α) (v : α) (h : s.wf) : 1 ≤ (s.create v).1 := by
  unfold create
  cases hf : s.entries.find? (fun e => decide (e.1 = v)) with
  | none => exact h.1
  | some e => exact h.2 e (List.mem_of_find?_eq_some hf)

theorem create_eq_found (s : StateCache α) (v : α) (e : α × ℕ × ℕ)
    (hf : s.entries.find? (fun x => decide (x.1 = v)) = some e) :
    s.create v = (e.2.1, ⟨bumpEntry s.entries v, s.nextToken⟩) := by
  unfold create
  rw [hf]

theorem create_eq_none (s : StateCache α) (v : α)
    (hf : s.entries.find? (fun x => decide (x.1 = v)) = none) :
    s.create v = (s.nextToken, ⟨(v, s.nextToken, 1) :: s.entries, s.nextToken + 1⟩) := by
  unfold create
  rw [hf]

theorem find?_create (s : StateCache α) (v : α) :
    ∃ c, 1 ≤ c ∧ ((s.create v).2).entries.find? (fun e => decide (e.1 = v)) =
      some (v, (s.create v).1, c) := by
  cases hf : s.entries.find? (fun e => decide (e.1 = v)) with
  | none =>
    refine ⟨1, le_refl 1, ?_⟩
    rw [create_eq_none s v hf]
    exact List.find?_cons_of_pos _ (by simp)
  | some e =>
    have hev : e.1 = v := by simpa using List.find?_some hf
    refine ⟨e.2.2 + 1, by omega, ?_⟩
    rw [create_eq_found s v e hf]
    simp only []
    rw [find?_bumpEntry, hf]
    simp [hev]

theorem find?_create_create (s : StateCache α) (v : α) :
    ∃ c, 2 ≤ c ∧ (((s.create v).2.create v).2).entries.find? (fun e => decide (e.1 = v)) =
      some (v, (s.create v).1, c) ∧ ((s.create v).2.create v).1 = (s.create v).1 := by
  obtain ⟨c, hc, hfind⟩ := find?_create s v
  have h2 : (s.create v).2.create v =
      ((s.create v).1, ⟨bumpEntry ((s.create v).2).entries v, ((s.create v).2).nextToken⟩) :=
    create_eq_found ((s.create v).2) v _ hfind
  refine ⟨c + 1, by omega, ?_, by rw [h2]⟩
  rw [h2]
  simp only []
  rw [find?_bumpEntry, hfind]
  rfl

theorem dedup_create_create_destroy (s : StateCache α) (v : α) (hwf : s.wf) :
    ((s.create v).2.create v).1 = (s.create v).1 ∧
    ((((s.create v).2.create v).2).destroyState v (((s.create v).2.create v).1)).lookupToken v =
      some (s.create v).1 := by
  obtain ⟨c, hc, hfind, hfst⟩ := find?_create_create s v
  refine ⟨hfst, ?_⟩
  have ht1 : 1 ≤ (s.create v).1 := one_le_create_fst s v hwf
  rw [hfst]
  unfold destroyState
  rw [if_neg (by unfold DynamicRenderStateToken; omega)]
  unfold lookupToken
  simp only []
  rw [find?_releaseEntry _ v _ hfind hc]
  rfl

theorem ite_create_eq_sentinel (b : Bool) (s : StateCache α) (v : α) (hwf : s.wf) :
    ((if b = true then s.create v else (DynamicRenderStateToken, s)).1 = DynamicRenderStateToken ↔
      b = false) := by
  cases b with
  | false =>
    rw [if_neg (by simp)]
    simp [DynamicRenderStateToken]
  | true =>
    have h1 := one_le_create_fst s v hwf
    rw [if_pos rfl]
    simp only [DynamicRenderStateToken]
    constructor
    · intro h
      exact absurd h (by omega)
    · intro h
      cases h

end StateCache

theorem emptyStateCache_wf (α : Type) : (emptyStateCache α).wf :=
  ⟨le_refl 1, fun e he => absurd he (List.not_mem_nil e)⟩

theorem emptyRenderStateCache_wfAll : emptyRenderStateCache.wfAll :=
  ⟨emptyStateCache_wf _, emptyStateCache_wf _, emptyStateCache_wf _, emptyStateCache_wf _,
   emptyStateCache_wf _, emptyStateCache_wf _, emptyStateCache_wf _, emptyStateCache_wf _,
   emptyStateCache_wf _⟩

theorem createStaticState_fst_tri (cache : RenderStateCacheModel) (info : ImmedInfo) :
    (createStaticState cache info).1.triangleRasterState =
      (cache.triCache.create info.triangleRasterState).1 := rfl

theorem createStaticState_snd_tri (cache : RenderStateCacheModel) (info : ImmedInfo) :
    (createStaticState cache info).2.triCache =
      (cache.triCache.create info.triangleRasterState).2 := rfl

theorem destroyStaticState_tri (cache : RenderStateCacheModel) (info : ImmedInfo)
    (toks : StaticTokens) :
    (destroyStaticState cache info toks).triCache =
      cache.triCache.destroyState info.triangleRasterState toks.triangleRasterState := rfl

/-- C1: the claim demands all-or-nothing multi-device creation, including on
per-category state-object failure.  Evaluating GraphicsPipeline::Create on a
two-device group whose MSAA state-object creation fails on device 1 (native
pipelines succeeding) shows the failure is dropped: the call returns
VK_SUCCESS, writes the pipeline handle, destroys nothing and frees nothing,
because the source stores the failing Pal result of CreateMsaaState /
CreateColorBlendState / CreateDepthStencilState into a local that is never
folded into result. -/
theorem C1_stateObjectFailureIgnored :
    graphicsPipelineCreate envStateObjFailDev1 VkResult.success =
      { result := VkResult.success, constructedPipelines := [0, 1], destroyedPipelines := [],
        systemMemFreed := false, handleWritten := true } := rfl

/-- C10: for every pipeline creation input, the baked input-assembly state
carries primitive restart index 0xFFFFFFFF exactly when primitive restart is
enabled in the input-assembly block, and 0 when it is disabled; the index is
never taken from the input. -/
theorem C10_primitiveRestartIndex (limits : DeviceLimits) (pIn : GraphicsPipelineCreateInfo) :
    (buildPatchedShadersParsed limits pIn).immed.inputAssemblyState.primitiveRestartIndex =
      if pIn.pInputAssemblyState.primitiveRestartEnable then 0xFFFFFFFF else 0 := by
  unfold buildPatchedShadersParsed
  rw [depthStencilStage_inputAssemblyState, colorBlendStage_inputAssemblyState,
    multisampleStage_inputAssemblyState, BuildRasterizationState_inputAssemblyState,
    viewportStage_inputAssemblyState]

/-- C5: the static-state token cache is a structural dedup: creating the
static state of two pipelines with identical triangle-raster parameters under
the same cache yields equal triangle-raster tokens, and after destroying the
second pipeline's static state the surviving token still maps to the shared
parameter value in the cache, unchanged. -/
theorem C5_triangleRasterTokenDedup (cache : RenderStateCacheModel) (infoA infoB : ImmedInfo)
    (hv : infoA.triangleRasterState = infoB.triangleRasterState) (hwf : cache.triCache.wf) :
    (createStaticState cache infoA).1.triangleRasterState =
      (createStaticState (createStaticState cache infoA).2 infoB).1.triangleRasterState ∧
    ((destroyStaticState (createStaticState (createStaticState cache infoA).2 infoB).2 infoB
        (createStaticState (createStaticState cache infoA).2 infoB).1).triCache).lookupToken
        infoB.triangleRasterState =
      some (createStaticState cache infoA).1.triangleRasterState := by
  have hv2 : infoB.triangleRasterState = infoA.triangleRasterState := hv.symm
  have h := StateCache.dedup_create_create_destroy cache.triCache infoA.triangleRasterState hwf
  simp only [createStaticState_fst_tri, createStaticState_snd_tri, destroyStaticState_tri, hv2]
  exact ⟨h.1.symm, h.2⟩

/-- Witness for C5 at the empty cache and a concrete parameter value. -/
theorem C5_witness :
    ((destroyStaticState
        (createStaticState (createStaticState emptyRenderStateCache ImmedInfo.init).2
          ImmedInfo.init).2 ImmedInfo.init
        (createStaticState (createStaticState emptyRenderStateCache ImmedInfo.init).2
          ImmedInfo.init).1).triCache).lookupToken ImmedInfo.init.triangleRasterState =
      some (createStaticState emptyRenderStateCache ImmedInfo.init).1.triangleRasterState :=
  (C5_triangleRasterTokenDedup emptyRenderStateCache ImmedInfo.init ImmedInfo.init rfl
    (emptyStateCache_wf TriangleRasterState)).2

/-- C9: for every pipeline whose static state is created against a
well-formed cache, each tokened conditional category stores the reserved
dynamic sentinel exactly when its bit is clear in the static-state mask; its
bit set means a structural token from the cache (never the sentinel). -/
theorem C9_tokenSentinelIffDynamic (cache : RenderStateCacheModel) (info : ImmedInfo)
    (hwf : cache.wfAll) :
    ((createStaticState cache info).1.pointLineRasterState = DynamicRenderStateToken ↔
      info.staticStateMask.testBit DynamicStatesInternal.LINE_WIDTH = false) ∧
    ((createStaticState cache info).1.depthBias = DynamicRenderStateToken ↔
      info.staticStateMask.testBit DynamicStatesInternal.DEPTH_BIAS = false) ∧
    ((createStaticState cache info).1.blendConst = DynamicRenderStateToken ↔
      info.staticStateMask.testBit DynamicStatesInternal.BLEND_CONSTANTS = false) ∧
    ((createStaticState cache info).1.depthBounds = DynamicRenderStateToken ↔
      info.staticStateMask.testBit DynamicStatesInternal.DEPTH_BOUNDS = false) ∧
    ((createStaticState cache info).1.viewport = DynamicRenderStateToken ↔
      info.staticStateMask.testBit DynamicStatesInternal.VIEWPORT = false) ∧
    ((createStaticState cache info).1.scissorRect = DynamicRenderStateToken ↔
      info.staticStateMask.testBit DynamicStatesInternal.SCISSOR = false) ∧
    ((createStaticState cache info).1.samplePattern = DynamicRenderStateToken ↔
      info.staticStateMask.testBit DynamicStatesInternal.SAMPLE_LOCATIONS_EXT = false) := by
  obtain ⟨hia, htri, hpl, hdb, hbc, hbounds, hvp, hsc, hsp⟩ := hwf
  exact ⟨StateCache.ite_create_eq_sentinel _ _ _ hpl,
    StateCache.ite_create_eq_sentinel _ _ _ hdb,
    StateCache.ite_create_eq_sentinel _ _ _ hbc,
    StateCache.ite_create_eq_sentinel _ _ _ hbounds,
    StateCache.ite_create_eq_sentinel _ _ _ hvp,
    StateCache.ite_create_eq_sentinel _ _ _ hsc,
    StateCache.ite_create_eq_sentinel _ _ _ hsp⟩

/-- Witness for C9 at the empty cache and the zero-initialized state (every
category dynamic). -/
theorem C9_witness :
    (createStaticState emptyRenderStateCache ImmedInfo.init).1.depthBias =
      DynamicRenderStateToken :=
  (C9_tokenSentinelIffDynamic emptyRenderStateCache ImmedInfo.init
    emptyRenderStateCache_wfAll).2.1.mpr (by decide)

/-- C7 counterexample: at rasterization sample count 32 (outside the accepted
set) with default sample locations, the default-pattern lookup returns none
yet BuildPatchedShaders reports VK_SUCCESS, the baked sample-pattern
locations are the null pattern and creation still writes a pipeline handle —
creation does not fail with an error as the claim states. -/
theorem C7_counterexample :
    GetDefaultQuadSamplePattern 32 = none ∧
    (buildPatchedShaders exampleBuildEnv exampleCreateInfo32).result = VkResult.success ∧
    (buildPatchedShaders exampleBuildEnv
      exampleCreateInfo32).state.immed.samplePattern.locations = none ∧
    (graphicsPipelineCreate exampleGoodDeviceEnv
        (buildPatchedShaders exampleBuildEnv exampleCreateInfo32).result).handleWritten = true :=
  ⟨rfl, rfl, rfl, rfl⟩

/-- C7 (amended): default sample-pattern selection is keyed solely by the
resolved rasterization sample count and accepts exactly the counts 1, 2, 4,
8 and 16; for every other count no pattern is produced (the lookup yields the
null pattern, a debug assertion in the source), but pipeline creation does
not fail: the parse keeps going and the result depends only on the
allocation and compiler oracles. -/
theorem C7_amended :
    (∀ n : ℕ, (GetDefaultQuadSamplePattern n).isSome = true ↔
      (n = 1 ∨ n = 2 ∨ n = 4 ∨ n = 8 ∨ n = 16)) ∧
    (∀ (env : BuildEnv) (pIn : GraphicsPipelineCreateInfo) (ms : MultisampleCreateInfo),
      pIn.pMultisampleState = some ms →
      customSampleLocationsOf ms = false →
      ¬ (ms.rasterizationSamples = 1 ∨ ms.rasterizationSamples = 2 ∨
         ms.rasterizationSamples = 4 ∨ ms.rasterizationSamples = 8 ∨
         ms.rasterizationSamples = 16) →
      env.tempAllocOk = true →
      (buildPatchedShaders env pIn).state.immed.samplePattern.locations = none ∧
      (buildPatchedShaders env pIn).result =
        (if env.compilerOk then VkResult.success else VkResult.errorInitializationFailed)) := by
  refine ⟨GetDefaultQuadSamplePattern_isSome, ?_⟩
  intro env pIn ms hms hcustom hout htmp
  have hne : ms.rasterizationSamples ≠ 1 := fun h => hout (Or.inl h)
  have hnone : GetDefaultQuadSamplePattern ms.rasterizationSamples = none := by
    cases hg : GetDefaultQuadSamplePattern ms.rasterizationSamples with
    | none => rfl
    | some q =>
      exact absurd ((GetDefaultQuadSamplePattern_isSome ms.rasterizationSamples).1
        (by rw [hg]; rfl)) hout
  have hb : buildPatchedShaders env pIn =
      { result := if env.compilerOk then VkResult.success else VkResult.errorInitializationFailed,
        state := buildPatchedShadersParsed env.limits pIn } := by
    unfold buildPatchedShaders
    rw [if_pos htmp]
  rw [hb]
  refine ⟨?_, rfl⟩
  rw [buildPatchedShadersParsed_samplePattern_default env.limits pIn ms hms hne hcustom]
  rw [hnone]

/-- Witness for C7 (amended), at count 4 (accepted) and count 6 (rejected,
no pattern, creation still succeeds). -/
theorem C7_witness :
    (GetDefaultQuadSamplePattern 4).isSome = true ∧
    (buildPatchedShaders exampleBuildEnv
      exampleCreateInfo6).state.immed.samplePattern.locations = none ∧
    (buildPatchedShaders exampleBuildEnv exampleCreateInfo6).result = VkResult.success := by
  refine ⟨(C7_amended.1 4).2 (by omega), ?_, ?_⟩
  · exact (C7_amended.2 exampleBuildEnv exampleCreateInfo6 exampleMultisample6 rfl rfl
      (by decide) rfl).1
  · exact (C7_amended.2 exampleBuildEnv exampleCreateInfo6 exampleMultisample6 rfl rfl
      (by decide) rfl).2

theorem colorBlendStage_msaa (rp : RenderPassModel) (subpass dynFlags : ℕ)
    (pCb : Option ColorBlendCreateInfo) (st : BuildState) :
    (colorBlendStage rp subpass dynFlags pCb st).msaa = st.msaa := by
  unfold colorBlendStage
  cases pCb with
  | none => rfl
  | some cb => rfl

theorem depthStencilStage_msaa (rp : RenderPassModel) (subpass dynFlags : ℕ)
    (pDs : Option DepthStencilCreateInfo) (st : BuildState) :
    (depthStencilStage rp subpass dynFlags pDs st).msaa = st.msaa := by
  unfold depthStencilStage
  cases pDs with
  | none => rfl
  | some ds =>
    simp only []
    split_ifs <;> rfl

theorem multisampleStage_pixelShaderSamples (rp : RenderPassModel) (subpass dynFlags : ℕ)
    (ms : MultisampleCreateInfo) (st : BuildState)
    (hne : ms.rasterizationSamples ≠ 1)
    (hcol : rp.subpassColorSampleCount subpass ≠ 0)
    (hshade : ms.sampleShadingEnable = true)
    (hmin : 0 < ms.minSampleShading) :
    (multisampleStage rp subpass dynFlags (some ms) st).msaa.pixelShaderSamples =
      Pow2Pad (Int.toNat ⌈(rp.subpassColorSampleCount subpass : ℚ) * ms.minSampleShading⌉) := by
  unfold multisampleStage
  simp [hne, hcol, hshade, hmin]

theorem multisampleStage_pixelShaderSamples_one (rp : RenderPassModel) (subpass dynFlags : ℕ)
    (ms : MultisampleCreateInfo) (st : BuildState)
    (h : ¬ (ms.rasterizationSamples ≠ 1 ∧ ms.sampleShadingEnable = true ∧
      0 < ms.minSampleShading)) :
    (multisampleStage rp subpass dynFlags (some ms) st).msaa.pixelShaderSamples =
      if ms.rasterizationSamples ≠ 1 then 1 else st.msaa.pixelShaderSamples := by
  unfold multisampleStage
  by_cases hne : ms.rasterizationSamples ≠ 1
  · have hb : (ms.sampleShadingEnable && decide (0 < ms.minSampleShading)) = false := by
      by_cases hs : ms.sampleShadingEnable = true
      · have hm : ¬ 0 < ms.minSampleShading := fun hm => h ⟨hne, hs, hm⟩
        simp [hm]
      · simp [Bool.eq_false_iff.mpr hs]
    rw [if_pos hne]
    simp [hne, hb]
  · rw [if_neg hne]
    simp [hne]

theorem viewportStage_msaa (dynFlags : ℕ) (pVp : Option ViewportStateCreateInfo)
    (st : BuildState) : (viewportStage dynFlags pVp st).msaa = st.msaa := by
  unfold viewportStage
  cases pVp with
  | none => rfl
  | some vp => rfl

theorem BuildRasterizationState_msaa (limits : DeviceLimits)
    (pIn : Option (RasterizationCreateInfo × List RasterizationExt)) (dynFlags : ℕ)
    (st : BuildState) :
    (BuildRasterizationState limits pIn dynFlags st).msaa = st.msaa := by
  unfold BuildRasterizationState
  cases pIn with
  | none => rfl
  | some pr => rfl

/-- C6: when multisampling is enabled (rasterization sample count not 1),
sample shading is enabled and the minimum shading ratio is positive, the
resolved pixel-shader sample count is the next power of two greater than or
equal to the ceiling of (subpass color sample count times minimum shading
ratio) — stated both through Pow2Pad and through the least-power-of-two
characterization; in every other case it is 1. -/
theorem C6_pixelShaderSampleCount (limits : DeviceLimits) (pIn : GraphicsPipelineCreateInfo)
    (ms : MultisampleCreateInfo) (hms : pIn.pMultisampleState = some ms)
    (hcol : pIn.renderPass.subpassColorSampleCount pIn.subpass ≠ 0) :
    ((ms.rasterizationSamples ≠ 1 ∧ ms.sampleShadingEnable = true ∧ 0 < ms.minSampleShading) →
      ((buildPatchedShadersParsed limits pIn).msaa.pixelShaderSamples =
        Pow2Pad (Int.toNat ⌈(pIn.renderPass.subpassColorSampleCount pIn.subpass : ℚ) *
          ms.minSampleShading⌉) ∧
       (∃ k, (buildPatchedShadersParsed limits pIn).msaa.pixelShaderSamples = 2 ^ k) ∧
       Int.toNat ⌈(pIn.renderPass.subpassColorSampleCount pIn.subpass : ℚ) *
          ms.minSampleShading⌉ ≤ (buildPatchedShadersParsed limits pIn).msaa.pixelShaderSamples ∧
       (∀ m : ℕ, Int.toNat ⌈(pIn.renderPass.subpassColorSampleCount pIn.subpass : ℚ) *
          ms.minSampleShading⌉ ≤ 2 ^ m →
          (buildPatchedShadersParsed limits pIn).msaa.pixelShaderSamples ≤ 2 ^ m))) ∧
    (¬ (ms.rasterizationSamples ≠ 1 ∧ ms.sampleShadingEnable = true ∧ 0 < ms.minSampleShading) →
      (buildPatchedShadersParsed limits pIn).msaa.pixelShaderSamples = 1) := by
  constructor
  · rintro ⟨hne, hshade, hmin⟩
    have hps : (buildPatchedShadersParsed limits pIn).msaa.pixelShaderSamples =
        Pow2Pad (Int.toNat ⌈(pIn.renderPass.subpassColorSampleCount pIn.subpass : ℚ) *
          ms.minSampleShading⌉) := by
      unfold buildPatchedShadersParsed
      rw [depthStencilStage_msaa, colorBlendStage_msaa, hms,
        multisampleStage_pixelShaderSamples _ _ _ _ _ hne hcol hshade hmin]
    refine ⟨hps, ⟨Nat.clog 2 (Int.toNat ⌈(pIn.renderPass.subpassColorSampleCount pIn.subpass : ℚ) *
      ms.minSampleShading⌉), by rw [hps]; rfl⟩, ?_, ?_⟩
    · rw [hps]
      exact Nat.le_pow_clog (by norm_num) _
    · intro m hm
      rw [hps]
      exact Nat.pow_le_pow_right (by norm_num)
        ((Nat.le_pow_iff_clog_le (by norm_num)).1 hm)
  · intro hn
    unfold buildPatchedShadersParsed
    rw [depthStencilStage_msaa, colorBlendStage_msaa, hms,
      multisampleStage_pixelShaderSamples_one _ _ _ _ _ hn]
    by_cases hne : ms.rasterizationSamples ≠ 1
    · rw [if_pos hne]
    · rw [if_neg hne, BuildRasterizationState_msaa, viewportStage_msaa]
      rfl

/-- Witness for C6: rasterization sample count 4, minimum shading ratio one
half and 4 color samples resolve to pixel-shader sample count 2. -/
theorem C6_witness :
    (buildPatchedShadersParsed exampleLimits exampleCreateInfo).msaa.pixelShaderSamples = 2 := by
  have h := (C6_pixelShaderSampleCount exampleLimits exampleCreateInfo exampleMultisample rfl
    (by decide)).1 ⟨by decide, rfl, by norm_num [exampleMultisample]⟩
  have h4 : (exampleCreateInfo.renderPass.subpassColorSampleCount
      exampleCreateInfo.subpass : ℚ) * exampleMultisample.minSampleShading = 2 := by
    show (4 : ℚ) * (1 / 2) = 2
    norm_num
  have hc : Int.toNat ⌈(exampleCreateInfo.renderPass.subpassColorSampleCount
      exampleCreateInfo.subpass : ℚ) * exampleMultisample.minSampleShading⌉ = 2 := by
    rw [h4]
    simp
  refine le_antisymm ?_ ?_
  · have := h.2.2.2 1 (by rw [hc]; norm_num)
    simpa using this
  · have := h.2.2.1
    rw [hc] at this
    exact this

theorem testBit_setBit (m c i : ℕ) :
    (setBit m c).testBit i = (m.testBit i || decide (c = i)) := by
  unfold setBit
  rw [Nat.testBit_lor, Nat.one_shiftLeft]
  rcases eq_or_ne c i with h | h
  · subst h
    simp [Nat.testBit_two_pow_self]
  · simp [Nat.testBit_two_pow_of_ne h, h]

theorem viewportStage_mask_ge (dynFlags : ℕ) (pVp : Option ViewportStateCreateInfo)
    (st : BuildState) (i : ℕ) (hi : 2 ≤ i) :
    (viewportStage dynFlags pVp st).immed.staticStateMask.testBit i =
      st.immed.staticStateMask.testBit i := by
  have h0 : ¬ (DynamicStatesInternal.VIEWPORT = i) := by
    unfold DynamicStatesInternal.VIEWPORT; omega
  have h1 : ¬ (DynamicStatesInternal.SCISSOR = i) := by
    unfold DynamicStatesInternal.SCISSOR; omega
  unfold viewportStage
  cases pVp with
  | none => rfl
  | some vp =>
    simp only []
    split_ifs <;> simp [testBit_setBit, h0, h1]

theorem BuildRasterizationState_mask_depthBias (limits : DeviceLimits)
    (rsIn : RasterizationCreateInfo) (exts : List RasterizationExt) (dynFlags : ℕ)
    (st : BuildState) :
    (BuildRasterizationState limits (some (rsIn, exts)) dynFlags
        st).immed.staticStateMask.testBit DynamicStatesInternal.DEPTH_BIAS =
      (st.immed.staticStateMask.testBit DynamicStatesInternal.DEPTH_BIAS ||
        (rsIn.depthBiasEnable && !(dynFlags.testBit DynamicStatesInternal.DEPTH_BIAS))) := by
  have h23 : ¬ (DynamicStatesInternal.LINE_WIDTH = DynamicStatesInternal.DEPTH_BIAS) := by
    unfold DynamicStatesInternal.LINE_WIDTH DynamicStatesInternal.DEPTH_BIAS; omega
  unfold BuildRasterizationState
  simp only []
  split_ifs with hdb hlw hlw <;>
    simp_all [testBit_setBit, h23]

theorem BuildRasterizationState_mask_other (limits : DeviceLimits)
    (pIn : Option (RasterizationCreateInfo × List RasterizationExt)) (dynFlags : ℕ)
    (st : BuildState) (i : ℕ) (h2 : i ≠ 2) (h3 : i ≠ 3) :
    (BuildRasterizationState limits pIn dynFlags st).immed.staticStateMask.testBit i =
      st.immed.staticStateMask.testBit i := by
  have hlw : ¬ (DynamicStatesInternal.LINE_WIDTH = i) := by
    unfold DynamicStatesInternal.LINE_WIDTH; omega
  have hdb : ¬ (DynamicStatesInternal.DEPTH_BIAS = i) := by
    unfold DynamicStatesInternal.DEPTH_BIAS; omega
  unfold BuildRasterizationState
  cases pIn with
  | none => rfl
  | some pr =>
    simp only []
    split_ifs <;> simp [testBit_setBit, hlw, hdb]

theorem multisampleStage_mask_ne (rp : RenderPassModel) (subpass dynFlags : ℕ)
    (pMs : Option MultisampleCreateInfo) (st : BuildState) (i : ℕ) (hi : i ≠ 9) :
    (multisampleStage rp subpass dynFlags pMs st).immed.staticStateMask.testBit i =
      st.immed.staticStateMask.testBit i := by
  have hsl : ¬ (DynamicStatesInternal.SAMPLE_LOCATIONS_EXT = i) := by
    unfold DynamicStatesInternal.SAMPLE_LOCATIONS_EXT; omega
  unfold multisampleStage
  cases pMs with
  | none => rfl
  | some ms =>
    simp only []
    split_ifs <;>
      first
        | rfl
        | (cases ms.sampleLocationsExt <;> simp [testBit_setBit, hsl])

theorem colorBlendStage_mask_blendConst (rp : RenderPassModel) (subpass dynFlags : ℕ)
    (cb : ColorBlendCreateInfo) (st : BuildState) :
    (colorBlendStage rp subpass dynFlags (some cb) st).immed.staticStateMask.testBit
        DynamicStatesInternal.BLEND_CONSTANTS =
      (st.immed.staticStateMask.testBit DynamicStatesInternal.BLEND_CONSTANTS ||
        (blendingEnabledOf rp subpass cb &&
          !(dynFlags.testBit DynamicStatesInternal.BLEND_CONSTANTS))) := by
  unfold colorBlendStage
  simp only []
  split_ifs with hb <;> simp_all [testBit_setBit]

theorem colorBlendStage_mask_ne (rp : RenderPassModel) (subpass dynFlags : ℕ)
    (pCb : Option ColorBlendCreateInfo) (st : BuildState) (i : ℕ) (hi : i ≠ 4) :
    (colorBlendStage rp subpass dynFlags pCb st).immed.staticStateMask.testBit i =
      st.immed.staticStateMask.testBit i := by
  have hbc : ¬ (DynamicStatesInternal.BLEND_CONSTANTS = i) := by
    unfold DynamicStatesInternal.BLEND_CONSTANTS; omega
  unfold colorBlendStage
  cases pCb with
  | none => rfl
  | some cb =>
    simp only []
    split_ifs <;> simp [testBit_setBit, hbc]

theorem depthStencilStage_mask_lt (rp : RenderPassModel) (subpass dynFlags : ℕ)
    (pDs : Option DepthStencilCreateInfo) (st : BuildState) (i : ℕ) (hi : i < 5) :
    (depthStencilStage rp subpass dynFlags pDs st).immed.staticStateMask.testBit i =
      st.immed.staticStateMask.testBit i := by
  have h5 : ¬ (DynamicStatesInternal.DEPTH_BOUNDS = i) := by
    unfold DynamicStatesInternal.DEPTH_BOUNDS; omega
  have h6 : ¬ (DynamicStatesInternal.STENCIL_COMPARE_MASK = i) := by
    unfold DynamicStatesInternal.STENCIL_COMPARE_MASK; omega
  have h7 : ¬ (DynamicStatesInternal.STENCIL_WRITE_MASK = i) := by
    unfold DynamicStatesInternal.STENCIL_WRITE_MASK; omega
  have h8 : ¬ (DynamicStatesInternal.STENCIL_REFERENCE = i) := by
    unfold DynamicStatesInternal.STENCIL_REFERENCE; omega
  unfold depthStencilStage
  cases pDs with
  | none => rfl
  | some ds =>
    simp only []
    split_ifs <;> simp [testBit_setBit, h5, h6, h7, h8]

theorem colorBlendStage_none_mask (rp : RenderPassModel) (subpass dynFlags : ℕ)
    (st : BuildState) (i : ℕ) :
    (colorBlendStage rp subpass dynFlags none st).immed.staticStateMask.testBit i =
      st.immed.staticStateMask.testBit i := rfl

/-- C8: the depth-bias category bit is set in the static-state mask exactly
when depth bias is enabled in the rasterization block and depth bias is not
flagged dynamic; the blend-constants bit is set only if some color target
with a defined attachment format enables blending and blend constants are
not flagged dynamic. -/
theorem C8_conditionalBaking (limits : DeviceLimits) (pIn : GraphicsPipelineCreateInfo)
    (rsIn : RasterizationCreateInfo) (exts : List RasterizationExt)
    (hrs : pIn.pRasterizationState = some (rsIn, exts)) :
    ((buildPatchedShadersParsed limits pIn).immed.staticStateMask.testBit
        DynamicStatesInternal.DEPTH_BIAS = true ↔
      (rsIn.depthBiasEnable = true ∧
        (buildDynamicStateFlags pIn.pDynamicStates).testBit
          DynamicStatesInternal.DEPTH_BIAS = false)) ∧
    ((buildPatchedShadersParsed limits pIn).immed.staticStateMask.testBit
        DynamicStatesInternal.BLEND_CONSTANTS = true →
      (∃ cb, pIn.pColorBlendState = some cb ∧
        ∃ pr ∈ (cb.attachments.take MaxColorTargets).enum,
          pIn.renderPass.colorAttachmentFormat pIn.subpass pr.1 ≠ 0 ∧
          pr.2.blendEnable = true) ∧
      (buildDynamicStateFlags pIn.pDynamicStates).testBit
        DynamicStatesInternal.BLEND_CONSTANTS = false) := by
  constructor
  · have hdb : (buildPatchedShadersParsed limits pIn).immed.staticStateMask.testBit
        DynamicStatesInternal.DEPTH_BIAS =
        (rsIn.depthBiasEnable && !((buildDynamicStateFlags pIn.pDynamicStates).testBit
          DynamicStatesInternal.DEPTH_BIAS)) := by
      unfold buildPatchedShadersParsed
      rw [depthStencilStage_mask_lt _ _ _ _ _ _
          (by unfold DynamicStatesInternal.DEPTH_BIAS; omega),
        colorBlendStage_mask_ne _ _ _ _ _ _
          (by unfold DynamicStatesInternal.DEPTH_BIAS; omega),
        multisampleStage_mask_ne _ _ _ _ _ _
          (by unfold DynamicStatesInternal.DEPTH_BIAS; omega),
        hrs, BuildRasterizationState_mask_depthBias,
        viewportStage_mask_ge _ _ _ _
          (by unfold DynamicStatesInternal.DEPTH_BIAS; omega)]
      simp
    rw [hdb]
    simp [Bool.and_eq_true, Bool.not_eq_true']
  · intro h
    unfold buildPatchedShadersParsed at h
    rw [depthStencilStage_mask_lt _ _ _ _ _ _
      (by unfold DynamicStatesInternal.BLEND_CONSTANTS; omega)] at h
    cases hcb : pIn.pColorBlendState with
    | none =>
      rw [hcb, colorBlendStage_none_mask,
        multisampleStage_mask_ne _ _ _ _ _ _
          (by unfold DynamicStatesInternal.BLEND_CONSTANTS; omega),
        BuildRasterizationState_mask_other _ _ _ _ _
          (by unfold DynamicStatesInternal.BLEND_CONSTANTS; omega)
          (by unfold DynamicStatesInternal.BLEND_CONSTANTS; omega),
        viewportStage_mask_ge _ _ _ _
          (by unfold DynamicStatesInternal.BLEND_CONSTANTS; omega)] at h
      simp at h
    | some cb =>
      rw [hcb, colorBlendStage_mask_blendConst,
        multisampleStage_mask_ne _ _ _ _ _ _
          (by unfold DynamicStatesInternal.BLEND_CONSTANTS; omega),
        BuildRasterizationState_mask_other _ _ _ _ _
          (by unfold DynamicStatesInternal.BLEND_CONSTANTS; omega)
          (by unfold DynamicStatesInternal.BLEND_CONSTANTS; omega),
        viewportStage_mask_ge _ _ _ _
          (by unfold DynamicStatesInternal.BLEND_CONSTANTS; omega)] at h
      simp only [Nat.zero_testBit, Bool.false_or, Bool.and_eq_true, Bool.not_eq_true'] at h
      refine ⟨⟨cb, rfl, ?_⟩, h.2⟩
      have := List.any_eq_true.mp h.1
      obtain ⟨pr, hpr, hf⟩ := this
      refine ⟨pr, hpr, ?_⟩
      simpa using hf

/-- Witness for C8: the example pipeline bakes its depth-bias parameters. -/
theorem C8_witness :
    (buildPatchedShadersParsed exampleLimits exampleCreateInfo).immed.staticStateMask.testBit
      DynamicStatesInternal.DEPTH_BIAS = true :=
  (C8_conditionalBaking exampleLimits exampleCreateInfo exampleRasterization [] rfl).1.mpr
    ⟨rfl, by decide⟩

theorem deviceLoop_snd_mem (p : GraphicsPipelineModel) (old : BoundTokens)
    (prevHash : Option (ℕ → ℕ)) (v s : Bool) (ds : List ℕ) (rs : CmdBufferRenderState)
    (c : BindCmd) :
    c ∈ (deviceLoop p old prevHash v s ds rs).2 ↔
      ∃ d ∈ ds, c ∈ bindOneDeviceCmds p old prevHash v s d := by
  induction ds generalizing rs with
  | nil => simp [deviceLoop]
  | cons d ds ih =>
    simp [deviceLoop, bindOneDevice, List.mem_append, ih]

theorem deviceLoop_fst_viewportCount (p : GraphicsPipelineModel) (old : BoundTokens)
    (prevHash : Option (ℕ → ℕ)) (v s : Bool) (ds : List ℕ) (rs : CmdBufferRenderState) :
    (deviceLoop p old prevHash v s ds rs).1.viewportCount = rs.viewportCount := by
  induction ds generalizing rs with
  | nil => rfl
  | cons d ds ih => simp [deviceLoop, bindOneDevice, ih]

theorem deviceLoop_fst_scissorCount (p : GraphicsPipelineModel) (old : BoundTokens)
    (prevHash : Option (ℕ → ℕ)) (v s : Bool) (ds : List ℕ) (rs : CmdBufferRenderState) :
    (deviceLoop p old prevHash v s ds rs).1.scissorCount = rs.scissorCount := by
  induction ds generalizing rs with
  | nil => rfl
  | cons d ds ih => simp [deviceLoop, bindOneDevice, ih]

theorem deviceLoop_fst_viewports (p : GraphicsPipelineModel) (old : BoundTokens)
    (prevHash : Option (ℕ → ℕ)) (v s : Bool) (ds : List ℕ) (rs : CmdBufferRenderState) :
    (deviceLoop p old prevHash v s ds rs).1.staticTokens.viewports =
      rs.staticTokens.viewports := by
  induction ds generalizing rs with
  | nil => rfl
  | cons d ds ih => simp [deviceLoop, bindOneDevice, ih, bindOneDeviceTokens]

theorem deviceLoop_fst_scissorRect (p : GraphicsPipelineModel) (old : BoundTokens)
    (prevHash : Option (ℕ → ℕ)) (v s : Bool) (ds : List ℕ) (rs : CmdBufferRenderState) :
    (deviceLoop p old prevHash v s ds rs).1.staticTokens.scissorRect =
      rs.staticTokens.scissorRect := by
  induction ds generalizing rs with
  | nil => rfl
  | cons d ds ih => simp [deviceLoop, bindOneDevice, ih, bindOneDeviceTokens]

theorem bindOneDeviceTokens_idem (p : GraphicsPipelineModel) (old t : BoundTokens) :
    bindOneDeviceTokens p old (bindOneDeviceTokens p old t) = bindOneDeviceTokens p old t := by
  unfold bindOneDeviceTokens
  split_ifs <;> rfl

theorem deviceLoop_fst_tokens (p : GraphicsPipelineModel) (old : BoundTokens)
    (prevHash : Option (ℕ → ℕ)) (v s : Bool) (ds : List ℕ) (rs : CmdBufferRenderState)
    (hds : ds ≠ []) :
    (deviceLoop p old prevHash v s ds rs).1.staticTokens =
      bindOneDeviceTokens p old rs.staticTokens := by
  induction ds generalizing rs with
  | nil => cases hds rfl
  | cons d ds ih =>
    cases ds with
    | nil => rfl
    | cons e es =>
      show (deviceLoop p old prevHash v s (e :: es)
        (bindOneDevice p old prevHash v s d rs).1).1.staticTokens = _
      rw [ih ((bindOneDevice p old prevHash v s d rs).1) (by simp)]
      show bindOneDeviceTokens p old (bindOneDeviceTokens p old rs.staticTokens) = _
      exact bindOneDeviceTokens_idem p old rs.staticTokens

theorem bindHeadState_viewportCount (p : GraphicsPipelineModel) (vpHit scHit : Bool)
    (rs1 : CmdBufferRenderState) :
    (bindHeadState p vpHit scHit rs1).viewportCount = rs1.viewportCount := by
  unfold bindHeadState
  split_ifs <;> rfl

theorem bindHeadState_scissorCount (p : GraphicsPipelineModel) (vpHit scHit : Bool)
    (rs1 : CmdBufferRenderState) :
    (bindHeadState p vpHit scHit rs1).scissorCount = rs1.scissorCount := by
  unfold bindHeadState
  split_ifs <;> rfl

theorem bindHeadState_boundPipelineHash (p : GraphicsPipelineModel) (vpHit scHit : Bool)
    (rs1 : CmdBufferRenderState) :
    (bindHeadState p vpHit scHit rs1).boundPipelineHash = rs1.boundPipelineHash := by
  unfold bindHeadState
  split_ifs <;> rfl

theorem bindHeadState_viewports (p : GraphicsPipelineModel) (vpHit scHit : Bool)
    (rs1 : CmdBufferRenderState) :
    (bindHeadState p vpHit scHit rs1).staticTokens.viewports =
      (if vpHit then p.staticTokens.viewport else rs1.staticTokens.viewports) := by
  unfold bindHeadState
  split_ifs <;> rfl

theorem bindHeadState_scissorRect (p : GraphicsPipelineModel) (vpHit scHit : Bool)
    (rs1 : CmdBufferRenderState) :
    (bindHeadState p vpHit scHit rs1).staticTokens.scissorRect =
      (if scHit then p.staticTokens.scissorRect else rs1.staticTokens.scissorRect) := by
  unfold bindHeadState
  split_ifs <;> rfl

theorem bindHeadState_inputAssemblyState (p : GraphicsPipelineModel) (vpHit scHit : Bool)
    (rs1 : CmdBufferRenderState) :
    (bindHeadState p vpHit scHit rs1).staticTokens.inputAssemblyState =
      rs1.staticTokens.inputAssemblyState := by
  unfold bindHeadState
  split_ifs <;> rfl

theorem bindHeadState_triangleRasterState (p : GraphicsPipelineModel) (vpHit scHit : Bool)
    (rs1 : CmdBufferRenderState) :
    (bindHeadState p vpHit scHit rs1).staticTokens.triangleRasterState =
      rs1.staticTokens.triangleRasterState := by
  unfold bindHeadState
  split_ifs <;> rfl

theorem bindHeadState_pointLineRasterState (p : GraphicsPipelineModel) (vpHit scHit : Bool)
    (rs1 : CmdBufferRenderState) :
    (bindHeadState p vpHit scHit rs1).staticTokens.pointLineRasterState =
      rs1.staticTokens.pointLineRasterState := by
  unfold bindHeadState
  split_ifs <;> rfl

theorem bindHeadState_depthBiasState (p : GraphicsPipelineModel) (vpHit scHit : Bool)
    (rs1 : CmdBufferRenderState) :
    (bindHeadState p vpHit scHit rs1).staticTokens.depthBiasState =
      rs1.staticTokens.depthBiasState := by
  unfold bindHeadState
  split_ifs <;> rfl

theorem bindHeadState_blendConst (p : GraphicsPipelineModel) (vpHit scHit : Bool)
    (rs1 : CmdBufferRenderState) :
    (bindHeadState p vpHit scHit rs1).staticTokens.blendConst =
      rs1.staticTokens.blendConst := by
  unfold bindHeadState
  split_ifs <;> rfl

theorem bindHeadState_depthBounds (p : GraphicsPipelineModel) (vpHit scHit : Bool)
    (rs1 : CmdBufferRenderState) :
    (bindHeadState p vpHit scHit rs1).staticTokens.depthBounds =
      rs1.staticTokens.depthBounds := by
  unfold bindHeadState
  split_ifs <;> rfl

theorem bindHeadState_samplePattern (p : GraphicsPipelineModel) (vpHit scHit : Bool)
    (rs1 : CmdBufferRenderState) :
    (bindHeadState p vpHit scHit rs1).staticTokens.samplePattern =
      rs1.staticTokens.samplePattern := by
  unfold bindHeadState
  split_ifs <;> rfl

theorem bindToCmdBuffer_fst_viewportCount (mask : List ℕ) (p : GraphicsPipelineModel)
    (rs : CmdBufferRenderState) :
    (bindToCmdBuffer mask p rs).1.viewportCount = p.viewportParams.count := by
  unfold bindToCmdBuffer
  simp only []
  rw [deviceLoop_fst_viewportCount, bindHeadState_viewportCount]

theorem bindToCmdBuffer_fst_scissorCount (mask : List ℕ) (p : GraphicsPipelineModel)
    (rs : CmdBufferRenderState) :
    (bindToCmdBuffer mask p rs).1.scissorCount = p.scissorRectParams.count := by
  unfold bindToCmdBuffer
  simp only []
  rw [deviceLoop_fst_scissorCount, bindHeadState_scissorCount]

theorem bindToCmdBuffer_fst_viewports (mask : List ℕ) (p : GraphicsPipelineModel)
    (rs : CmdBufferRenderState)
    (hvp : pipelineSetsState p DynamicStatesInternal.VIEWPORT = true) :
    (bindToCmdBuffer mask p rs).1.staticTokens.viewports = p.staticTokens.viewport := by
  unfold bindToCmdBuffer
  simp only []
  rw [deviceLoop_fst_viewports, bindHeadState_viewports]
  by_cases hx : rs.staticTokens.viewports = p.staticTokens.viewport
  · split_ifs <;> simp [hx]
  · rw [if_pos]
    simp [hvp, IsStaticStateDifferent, hx]

theorem bindToCmdBuffer_fst_scissorRect (mask : List ℕ) (p : GraphicsPipelineModel)
    (rs : CmdBufferRenderState)
    (hsc : pipelineSetsState p DynamicStatesInternal.SCISSOR = true) :
    (bindToCmdBuffer mask p rs).1.staticTokens.scissorRect = p.staticTokens.scissorRect := by
  unfold bindToCmdBuffer
  simp only []
  rw [deviceLoop_fst_scissorRect, bindHeadState_scissorRect]
  by_cases hx : rs.staticTokens.scissorRect = p.staticTokens.scissorRect
  · split_ifs <;> simp [hx]
  · rw [if_pos]
    simp [hsc, IsStaticStateDifferent, hx]

theorem bindToCmdBuffer_fst_loopTokens (mask : List ℕ) (p : GraphicsPipelineModel)
    (rs : CmdBufferRenderState) (hmask : mask ≠ []) (hAll : allCategoriesStatic p) :
    (bindToCmdBuffer mask p rs).1.staticTokens.inputAssemblyState =
        p.staticTokens.inputAssemblyState ∧
    (bindToCmdBuffer mask p rs).1.staticTokens.triangleRasterState =
        p.staticTokens.triangleRasterState ∧
    (bindToCmdBuffer mask p rs).1.staticTokens.pointLineRasterState =
        p.staticTokens.pointLineRasterState ∧
    (bindToCmdBuffer mask p rs).1.staticTokens.depthBiasState = p.staticTokens.depthBias ∧
    (bindToCmdBuffer mask p rs).1.staticTokens.blendConst = p.staticTokens.blendConst ∧
    (bindToCmdBuffer mask p rs).1.staticTokens.depthBounds = p.staticTokens.depthBounds ∧
    (bindToCmdBuffer mask p rs).1.staticTokens.samplePattern = p.staticTokens.samplePattern := by
  obtain ⟨hvp, hsc, hlw, hdb, hbc, hbounds, hsl⟩ := hAll
  unfold bindToCmdBuffer
  simp only []
  rw [deviceLoop_fst_tokens _ _ _ _ _ _ _ hmask]
  unfold bindOneDeviceTokens
  refine ⟨?_, ?_, ?_, ?_, ?_, ?_, ?_⟩ <;>
    simp only [bindHeadState_inputAssemblyState, bindHeadState_triangleRasterState,
      bindHeadState_pointLineRasterState, bindHeadState_depthBiasState,
      bindHeadState_blendConst, bindHeadState_depthBounds, bindHeadState_samplePattern] <;>
    (split_ifs <;> simp_all [IsStaticStateDifferent])

theorem setViewports_mem_bindOneDeviceCmds (p : GraphicsPipelineModel) (old : BoundTokens)
    (ph : Option (ℕ → ℕ)) (v s : Bool) (d : ℕ) (hv : v = true) :
    BindCmd.setViewports d ∈ bindOneDeviceCmds p old ph v s d := by
  subst hv
  unfold bindOneDeviceCmds
  simp [List.mem_append]

theorem setScissorRects_mem_bindOneDeviceCmds (p : GraphicsPipelineModel) (old : BoundTokens)
    (ph : Option (ℕ → ℕ)) (v s : Bool) (d : ℕ) (hs : s = true) :
    BindCmd.setScissorRects d ∈ bindOneDeviceCmds p old ph v s d := by
  subst hs
  unfold bindOneDeviceCmds
  simp [List.mem_append]

theorem mem_ite_singleton_nil {α : Type} (a x : α) (b : Bool) :
    a ∈ (if b = true then [x] else []) ↔ (b = true ∧ a = x) := by
  cases b <;> simp

theorem bindPipeline_mem_bindOneDeviceCmds (p : GraphicsPipelineModel) (old : BoundTokens)
    (hh : ℕ → ℕ) (v s : Bool) (d e : ℕ) :
    BindCmd.bindPipeline e ∈ bindOneDeviceCmds p old (some hh) v s d ↔
      (e = d ∧ hh d ≠ p.pipelineHash d) := by
  unfold bindOneDeviceCmds
  dsimp only
  by_cases hb : hh d ≠ p.pipelineHash d
  · rw [if_pos hb]
    simp [List.mem_append, mem_ite_singleton_nil, hb]
  · rw [if_neg hb]
    simp [List.mem_append, mem_ite_singleton_nil, hb]

theorem bindOneDeviceCmds_no_static (p : GraphicsPipelineModel) (old : BoundTokens)
    (ph : Option (ℕ → ℕ)) (v s : Bool) (d : ℕ)
    (hv : v = false) (hs : s = false)
    (hia : old.inputAssemblyState = p.staticTokens.inputAssemblyState)
    (htri : old.triangleRasterState = p.staticTokens.triangleRasterState)
    (hpl : old.pointLineRasterState = p.staticTokens.pointLineRasterState)
    (hdb : old.depthBiasState = p.staticTokens.depthBias)
    (hbc : old.blendConst = p.staticTokens.blendConst)
    (hbounds : old.depthBounds = p.staticTokens.depthBounds)
    (hsp : old.samplePattern = p.staticTokens.samplePattern) :
    ∀ c ∈ bindOneDeviceCmds p old ph v s d, isStaticStateSetCmd c = false := by
  subst hv hs
  intro c hc
  unfold bindOneDeviceCmds at hc
  cases ph with
  | none =>
    simp [List.mem_append, mem_ite_singleton_nil, hia, htri, hpl, hdb, hbc, hbounds, hsp,
      IsStaticStateDifferent] at hc
    rcases hc with rfl | rfl | rfl | rfl <;> rfl
  | some hh =>
    dsimp only at hc
    by_cases hb : hh d ≠ p.pipelineHash d
    · rw [if_pos hb] at hc
      simp [List.mem_append, mem_ite_singleton_nil, hia, htri, hpl, hdb, hbc, hbounds, hsp,
        IsStaticStateDifferent] at hc
      rcases hc with rfl | rfl | rfl | rfl <;> rfl
    · rw [if_neg hb] at hc
      simp [List.mem_append, mem_ite_singleton_nil, hia, htri, hpl, hdb, hbc, hbounds, hsp,
        IsStaticStateDifferent] at hc
      rcases hc with rfl | rfl | rfl <;> rfl

/-- C2: when the bound render state's viewport (or scissor) count differs
from the pipeline's count, BindToCmdBuffer re-emits a full viewport
(respectively scissor) array during that bind — either through the head
SetAllViewports/SetAllScissors write or through the count-dirty
CmdSetViewports/CmdSetScissorRects write on a device of the active mask —
and the bound render state's counts are updated to the pipeline's counts. -/
theorem C2_countChangeForcesReemission (mask : List ℕ) (p : GraphicsPipelineModel)
    (rs : CmdBufferRenderState) (hmask : mask ≠ []) :
    (rs.viewportCount ≠ p.viewportParams.count →
      BindCmd.setAllViewports ∈ (bindToCmdBuffer mask p rs).2 ∨
        ∃ d ∈ mask, BindCmd.setViewports d ∈ (bindToCmdBuffer mask p rs).2) ∧
    (rs.scissorCount ≠ p.scissorRectParams.count →
      BindCmd.setAllScissors ∈ (bindToCmdBuffer mask p rs).2 ∨
        ∃ d ∈ mask, BindCmd.setScissorRects d ∈ (bindToCmdBuffer mask p rs).2) ∧
    (bindToCmdBuffer mask p rs).1.viewportCount = p.viewportParams.count ∧
    (bindToCmdBuffer mask p rs).1.scissorCount = p.scissorRectParams.count := by
  obtain ⟨d0, hd0⟩ := List.exists_mem_of_ne_nil mask hmask
  refine ⟨?_, ?_, bindToCmdBuffer_fst_viewportCount mask p rs,
    bindToCmdBuffer_fst_scissorCount mask p rs⟩
  · intro hneq
    unfold bindToCmdBuffer
    simp only []
    split_ifs with h1 h2 h2
    · left
      simp
    · left
      simp
    · right
      refine ⟨d0, hd0, ?_⟩
      apply List.mem_append.mpr
      right
      rw [deviceLoop_snd_mem]
      refine ⟨d0, hd0, setViewports_mem_bindOneDeviceCmds _ _ _ _ _ _ ?_⟩
      simp [h1, bne_iff_ne, hneq]
    · right
      refine ⟨d0, hd0, ?_⟩
      apply List.mem_append.mpr
      right
      rw [deviceLoop_snd_mem]
      refine ⟨d0, hd0, setViewports_mem_bindOneDeviceCmds _ _ _ _ _ _ ?_⟩
      simp [h1, bne_iff_ne, hneq]
  · intro hneq
    unfold bindToCmdBuffer
    simp only []
    split_ifs with h1 h2 h2
    · left
      simp
    · right
      refine ⟨d0, hd0, ?_⟩
      apply List.mem_append.mpr
      right
      rw [deviceLoop_snd_mem]
      refine ⟨d0, hd0, setScissorRects_mem_bindOneDeviceCmds _ _ _ _ _ _ ?_⟩
      simp [h2, bne_iff_ne, hneq]
    · left
      simp
    · right
      refine ⟨d0, hd0, ?_⟩
      apply List.mem_append.mpr
      right
      rw [deviceLoop_snd_mem]
      refine ⟨d0, hd0, setScissorRects_mem_bindOneDeviceCmds _ _ _ _ _ _ ?_⟩
      simp [h2, bne_iff_ne, hneq]

/-- C3: with a previously bound pipeline present, the pipeline-bind command
is emitted on a device of the active mask exactly when that device's content
hash (per-device PAL pipeline hash) differs from the previously bound
pipeline's hash on that device; equal hashes suppress the pipeline bind. -/
theorem C3_pipelineBindOnHashChange (mask : List ℕ) (p : GraphicsPipelineModel) (rs : CmdBufferRenderState)
    (hh : ℕ → ℕ) (hprev : rs.boundPipelineHash = some hh) (d : ℕ) (hd : d ∈ mask) :
    (BindCmd.bindPipeline d ∈ (bindToCmdBuffer mask p rs).2 ↔ hh d ≠ p.pipelineHash d) := by
  unfold bindToCmdBuffer
  simp only []
  rw [hprev]
  constructor
  · intro hc
    rcases List.mem_append.mp hc with hc | hc
    · exfalso
      revert hc
      split_ifs <;> simp
    · rw [deviceLoop_snd_mem] at hc
      obtain ⟨e, he, hce⟩ := hc
      rw [bindPipeline_mem_bindOneDeviceCmds] at hce
      obtain ⟨heq, hne⟩ := hce
      subst heq
      exact hne
  · intro hne
    apply List.mem_append.mpr
    right
    rw [deviceLoop_snd_mem]
    exact ⟨d, hd, (bindPipeline_mem_bindOneDeviceCmds p _ hh _ _ d d).mpr ⟨rfl, hne⟩⟩

/-- C4: for a pipeline with every state category baked static, binding it
and then binding it again on the same command stream (with no intervening
state change beyond the caller's bound-pipeline bookkeeping) emits zero
static-state set commands on the second bind: every token comparison finds
the last-bound token equal and skips the write. -/
theorem C4_secondBindEmitsNoStaticStateWrites (mask : List ℕ) (p : GraphicsPipelineModel) (rs0 : CmdBufferRenderState)
    (h2 : Option (ℕ → ℕ)) (hAll : allCategoriesStatic p) :
    ∀ c ∈ (bindToCmdBuffer mask p
        { (bindToCmdBuffer mask p rs0).1 with boundPipelineHash := h2 }).2,
      isStaticStateSetCmd c = false := by
  have hvc := bindToCmdBuffer_fst_viewportCount mask p rs0
  have hscc := bindToCmdBuffer_fst_scissorCount mask p rs0
  have hvt := bindToCmdBuffer_fst_viewports mask p rs0 hAll.1
  have hst := bindToCmdBuffer_fst_scissorRect mask p rs0 hAll.2.1
  have hloopToks := fun hmask => bindToCmdBuffer_fst_loopTokens mask p rs0 hmask hAll
  set rs1 := (bindToCmdBuffer mask p rs0).1 with hrs1
  intro c hc
  unfold bindToCmdBuffer at hc
  simp only [] at hc
  rcases List.mem_append.mp hc with hc | hc
  · simp only [hvt, hst, hvc, hscc, IsStaticStateDifferent, bne_self_eq_false,
      Bool.and_false, Bool.false_eq_true, if_false, List.append_nil, List.nil_append] at hc
    exact absurd hc (List.not_mem_nil c)
  · rw [deviceLoop_snd_mem] at hc
    obtain ⟨d, hd, hcd⟩ := hc
    have hmask : mask ≠ [] := List.ne_nil_of_mem hd
    obtain ⟨hia, htri, hpl, hdbt, hbct, hbdt, hspt⟩ := hloopToks hmask
    refine bindOneDeviceCmds_no_static p _ _ _ _ d ?_ ?_ ?_ ?_ ?_ ?_ ?_ ?_ ?_ c hcd
    · simp [hvc]
    · simp [hscc]
    · simp [hia]
    · simp [htri]
    · simp [hpl]
    · simp [hdbt]
    · simp [hbct]
    · simp [hbdt]
    · simp [hspt]

/-- Witness for C2 on a one-device mask with differing counts. -/
theorem C2_witness :
    (BindCmd.setAllViewports ∈ (bindToCmdBuffer [0] examplePipeline exampleRenderState).2 ∨
      ∃ d ∈ [0],
        BindCmd.setViewports d ∈ (bindToCmdBuffer [0] examplePipeline exampleRenderState).2) ∧
    (bindToCmdBuffer [0] examplePipeline exampleRenderState).1.viewportCount = 2 := by
  have h := C2_countChangeForcesReemission [0] examplePipeline exampleRenderState (by simp)
  exact ⟨h.1 (by decide), h.2.2.1⟩

/-- Witness for C3: hash 41 bound, pipeline hash 42, bind emitted. -/
theorem C3_witness :
    BindCmd.bindPipeline 0 ∈
      (bindToCmdBuffer [0] examplePipeline
        { exampleRenderState with boundPipelineHash := some (fun _ => 41) }).2 :=
  (C3_pipelineBindOnHashChange [0] examplePipeline
    { exampleRenderState with boundPipelineHash := some (fun _ => 41) } (fun _ => 41) rfl 0
    (by simp)).mpr (by decide)

/-- Witness for C4: the second bind of the fully static example pipeline emits no static-state set command. -/
theorem C4_witness :
    ((bindToCmdBuffer [0] examplePipeline
        { (bindToCmdBuffer [0] examplePipeline exampleRenderState).1 with
          boundPipelineHash := none }).2.all (fun c => !isStaticStateSetCmd c)) = true :=
  List.all_eq_true.mpr (fun c hc => by
    simpa using C4_secondBindEmitsNoStaticStateWrites [0] examplePipeline exampleRenderState none
      (by refine ⟨?_, ?_, ?_, ?_, ?_, ?_, ?_⟩ <;> decide) c hc)

end Xgl
